import Mathlib

/-!
Shallow embedding of the core of the `sift` media-routing tool
(src/sift/router.py, inventory.py, transfer.py, cache.py) in Lean 4,
with theorems settling the frozen specification claims.

Modelling conventions:
* Python exceptions are explicit: fallible functions return `Exc α`
  (`Except PyExn α`), where `PyExn` records the exception class name and
  message.  Message texts are kept simple where the exact wording of a
  CPython message is irrelevant to the claims.
* Python `re` patterns supplied through configuration are abstracted as
  `PyPattern`: a compile-validity bit plus a match function.  `re.search`
  on an invalid pattern raises `re.error` (class name `error`); on a valid
  pattern it returns the abstract match function applied to the string.
  The two hard-coded regexes inside `render_name` are implemented
  concretely over characters.
* Numbers that Python holds as `float` (durations, fps, bitrates,
  thresholds) are modelled as `Rat`: only order comparisons on them occur
  in the modelled code, so rational arithmetic is faithful for all
  exactly-representable inputs.
* Filesystem paths are component lists (`PPath`); `Path.resolve()` is the
  identity on the already-absolute, symlink-free paths of the model.
* All functions are structurally recursive so that concrete witnesses
  evaluate inside the kernel.
-/

/-- A Python exception value: class name and message. -/
structure PyExn where
  cls : String
  msg : String
  deriving Repr, DecidableEq

/-- Outcome of running Python code that may raise. -/
abbrev Exc (α : Type) : Type := Except PyExn α

/-- Abstraction of a user-supplied `re` pattern string: whether it
compiles, and the leftmost-search predicate it denotes when it does. -/
structure PyPattern where
  valid : Bool
  search : String → Bool

/-- `re.search` on a configuration-supplied pattern: raises `re.error`
(class name `error`) when the pattern does not compile. -/
def py_re_search (p : PyPattern) (s : String) : Exc Bool :=
  if p.valid then .ok (p.search s) else .error ⟨"error", "bad pattern"⟩

/-- A pattern that fails to compile (used for malformed-pattern inputs). -/
def badPattern : PyPattern := ⟨false, fun _ => false⟩

-- ---------------------------------------------------------------------
-- Python string primitives (ASCII fragment, which is all the code uses)
-- ---------------------------------------------------------------------

/-- Python whitespace (`\s`, `str.strip`) on ASCII. -/
def pySpace (c : Char) : Bool :=
  c = ' ' || c = '\t' || c = '\n' || c = '\x0d' || c = '\x0b' || c = '\x0c'

/-- Python regex `\w` on ASCII: letters, digits, underscore. -/
def isWordChar (c : Char) : Bool := c.isAlphanum || c = '_'

def charLower (c : Char) : Char :=
  if 'A' ≤ c ∧ c ≤ 'Z' then Char.ofNat (c.toNat + 32) else c

def charUpper (c : Char) : Char :=
  if 'a' ≤ c ∧ c ≤ 'z' then Char.ofNat (c.toNat - 32) else c

/-- Python `str.lower()` (ASCII). -/
def pyLower (s : String) : String := ⟨s.data.map charLower⟩

/-- Python `str.upper()` (ASCII). -/
def pyUpper (s : String) : String := ⟨s.data.map charUpper⟩

/-- Python `str.strip()` (whitespace both ends). -/
def pyStrip (s : String) : String :=
  ⟨(s.data.dropWhile pySpace).reverse.dropWhile pySpace |>.reverse⟩

/-- Python `str.rstrip()`. -/
def pyRstrip (s : String) : String :=
  ⟨(s.data.reverse.dropWhile pySpace).reverse⟩

/-- `re.sub(r"\s+", " ", s)`: collapse whitespace runs to single spaces.
`prevSpace` records whether the previous character was whitespace. -/
def collapseWsAux : Bool → List Char → List Char
  | _, [] => []
  | prevSpace, c :: rest =>
    if pySpace c then
      if prevSpace then collapseWsAux true rest
      else ' ' :: collapseWsAux true rest
    else c :: collapseWsAux false rest

def collapseWsStr (s : String) : String := ⟨collapseWsAux false s.data⟩

/-- Python slice `s[:k]` for an `Int` index `k` (negative counts from the
end: `s[:-n]` drops the last `n` characters). -/
def pySliceTo (s : String) (k : Int) : String :=
  if k ≥ 0 then ⟨s.data.take k.toNat⟩
  else ⟨s.data.take (s.length - (-k).toNat)⟩

/-- Parse a Python `int(...)` string argument: optional surrounding
whitespace, optional sign, one or more digits.  (`int` underscores and
non-ASCII digits are outside the model.) -/
def pyParseInt (s : String) : Option Int :=
  let l := (s.data.dropWhile pySpace).reverse.dropWhile pySpace |>.reverse
  let (neg, ds) :=
    match l with
    | '-' :: rest => (true, rest)
    | '+' :: rest => (false, rest)
    | _ => (false, l)
  if ds = [] || ¬ ds.all Char.isDigit then none
  else
    let n := ds.foldl (fun acc c => acc * 10 + (c.toNat - '0'.toNat)) 0
    some (if neg then -(n : Int) else (n : Int))

/-- Python `int()` truncation of a float toward zero. -/
def truncRat (q : Rat) : Int := if q ≥ 0 then q.floor else q.ceil

/-- `f"{n:02d}"` for the parsed (nonnegative) season/episode numbers. -/
def fmt02 (n : Nat) : String :=
  if n < 10 then "0" ++ toString n else toString n

/-- `str.replace(pat, repl)` (all occurrences, left to right, non
overlapping); `skip` counts already-matched characters still to drop. -/
def replaceAllAux (pat repl : List Char) : Nat → List Char → List Char
  | _, [] => []
  | k+1, _ :: rest => replaceAllAux pat repl k rest
  | 0, c :: rest =>
    if pat.isPrefixOf (c :: rest) then
      repl ++ replaceAllAux pat repl (pat.length - 1) rest
    else c :: replaceAllAux pat repl 0 rest

/-- Python `str.replace` for a nonempty pattern. -/
def pyReplace (s pat repl : String) : String :=
  ⟨replaceAllAux pat.data repl.data 0 s.data⟩

/-- `" | ".join` style joining. -/
def joinWith (sep : String) : List String → String
  | [] => ""
  | [x] => x
  | x :: rest => x ++ sep ++ joinWith sep rest

-- ---------------------------------------------------------------------
-- Python `pathlib` fragment
-- ---------------------------------------------------------------------

/-- An absolute filesystem path as its components. -/
abbrev PPath := List String

def splitOnChar (sep : Char) : List Char → List (List Char)
  | [] => [[]]
  | c :: rest =>
    let r := splitOnChar sep rest
    if c = sep then [] :: r
    else
      match r with
      | h :: t => (c :: h) :: t
      | [] => [[c]]

/-- `Path(rel).parts` for a path string (empty components dropped). -/
def pathParts (rel : String) : List String :=
  ((splitOnChar '/' rel.data).map (fun l => (⟨l⟩ : String))).filter (fun p => p ≠ "")

/-- `Path(rel).name`: final component (empty for an empty path). -/
def pathNameOf (rel : String) : String := (pathParts rel).getLastD ""

/-- Index of the last `.` in a name, if any. -/
def lastDotIdx (l : List Char) : Option Nat :=
  match l with
  | [] => none
  | c :: rest =>
    match lastDotIdx rest with
    | some i => some (i + 1)
    | none => if c = '.' then some 0 else none

/-- `Path.suffix` of a file name: from the last dot, provided that dot is
neither the first nor the last character of the name. -/
def pySuffixOf (name : String) : String :=
  match lastDotIdx name.data with
  | none => ""
  | some i => if 0 < i ∧ i < name.data.length - 1 then ⟨name.data.drop i⟩ else ""

/-- `Path.stem` of a file name: the name minus `pySuffixOf`. -/
def pyStemOf (name : String) : String :=
  ⟨name.data.take (name.data.length - (pySuffixOf name).data.length)⟩

/-- `str(...)` of an absolute model path. -/
def pathStr (p : PPath) : String := "/" ++ joinWith "/" p

example : pathParts "tv/a.mkv" = ["tv", "a.mkv"] := by decide
example : pySuffixOf "movie.mkv" = ".mkv" := rfl
example : pyStemOf "movie.mkv" = "movie" := rfl
example : pySuffixOf "noext" = "" := rfl
example : pySuffixOf ".bashrc" = "" := rfl
example : pyStemOf "a.b.c" = "a.b" := rfl
example : pyReplace "a{x}b{x}" "{x}" "Z" = "aZbZ" := rfl
example : collapseWsStr "a   b  c" = "a b c" := rfl
example : pySliceTo "abcdef" (-2) = "abcd" := rfl
example : pyParseInt " 42 " = some 42 := rfl
example : pyParseInt "abc" = none := rfl

-- ---------------------------------------------------------------------
-- Data model (src/sift/model.py, restricted to the fields the claims use)
-- ---------------------------------------------------------------------

/-- `ffprobe` summary `stream_counts` sub-dict. -/
structure StreamCounts where
  video : Option Int
  audio : Option Int
  deriving Repr, DecidableEq

/-- Best-video-stream summary (`summarize` in ffprobe.py). -/
structure VideoInfo where
  codec : Option String
  profile : Option String
  width : Option Int
  height : Option Int
  fps : Option Rat
  color_transfer : Option String
  side_data_types : Option (List String)
  tags : Option (List (String × String))
  deriving Repr, DecidableEq

/-- Best-audio-stream summary. -/
structure AudioInfo where
  codec : Option String
  profile : Option String
  channels : Option Int
  deriving Repr, DecidableEq

/-- Technical-metadata summary attached to an item (`item["ffprobe"]`).
A failed probe is `{ok := false, ...}` with the other fields absent. -/
structure FFSummary where
  ok : Bool
  duration_s : Option Rat
  overall_bitrate_bps : Option Rat
  video : Option VideoInfo
  audio : Option AudioInfo
  stream_counts : Option StreamCounts
  deriving Repr, DecidableEq

/-- A failed-probe marker (`{"ok": False, "error": ...}`). -/
def probeFailed : FFSummary := ⟨false, none, none, none, none, none⟩

/-- An inventory item (the dict fields the core reads). -/
structure Item where
  relpath : Option String
  path : Option String
  skip_reason : Option String
  proposed_name : Option String
  ffprobe : Option FFSummary
  deriving Repr

/-- Scalar TOML values that can appear inside a tier rule. -/
inductive RVal where
  | str (s : String)
  | int (n : Int)
  | float (q : Rat)
  | bool (b : Bool)
  deriving Repr

/-- A tier `requires` rule value (scalar / list / table shape).  For a
table, the fields record the presence of the `eq`, `min`, `max`, `regex`
keys; `regex := some none` models a `regex` key holding a non-string. -/
inductive Rule where
  | scalar (v : RVal)
  | list (xs : List RVal)
  | table (eqv : Option Rule) (mn : Option RVal) (mx : Option RVal)
      (regex : Option (Option PyPattern))

structure TierDef where
  id : String
  folder : String
  requires : List (String × Rule)
  flags : List String

structure TierModelConfig where
  tier : List TierDef

structure ClassificationConfig where
  media_type_strategy : String
  tv_sxe_regex : PyPattern
  enable_season_episode_words : Bool
  tv_season_episode_regex : PyPattern
  problem_audio_codecs : List String
  problem_audio_profile_regex : List PyPattern
  hdr_color_transfer : List String
  hdr_side_data_regex : List PyPattern
  horizontal_4k_threshold : Int
  vertical_thresholds : List (String × Int)

structure NamingConfig where
  movie_template : String
  tv_template : String
  hdr_sep : String
  flags_sep : String
  fallback_to_stem : Bool
  vcodec_map : List (String × String)
  acodec_map : List (String × String)
  sanitize : Bool
  max_filename_len : Int

structure FlagsConfig where
  enable_hfr_flag : Bool
  hfr_fps_threshold : Rat
  enable_low_bitrate_flag : Bool
  low_bitrate_thresholds : List (String × Int)
  low_bitrate_flag_name : String
  judgement_flags : List String

structure IOConfig where
  mode : String
  mkdirs : Bool
  dedupe_on_collision : Bool

structure PathsConfig where
  incoming : String
  outgoing_root : PPath

/-- Sample-detection settings.  The dataclass itself is not in the
snapshot of model.py, but its four fields and their meanings are fixed
by their uses in inventory.py and by the tests. -/
structure SampleDetectionConfig where
  enabled : Bool
  min_duration_s : Rat
  min_video_streams : Int
  prefer_longest_variant : Bool

structure SiftConfig where
  paths : PathsConfig
  io : IOConfig
  classification : ClassificationConfig
  naming : NamingConfig
  tier_model : TierModelConfig
  flags : FlagsConfig
  sample_detection : SampleDetectionConfig

/-- Association-list lookup (Python `dict.get`). -/
def alGet {α : Type} : List (String × α) → String → Option α
  | [], _ => none
  | (k, v) :: rest, key => if k = key then some v else alGet rest key

-- ---------------------------------------------------------------------
-- router.py: media type
-- ---------------------------------------------------------------------

/-- `infer_media_type` (router.py).  Raises whatever `re.search` raises on
a malformed configured pattern — the function has no exception handler. -/
def infer_media_type (cfg : SiftConfig) (item : Item) : Exc String :=
  let strat := pyLower cfg.classification.media_type_strategy
  match item.relpath with
  | none => .ok "movies"
  | some rel =>
    if rel = "" then .ok "movies"
    else if strat = "folder" then
      match pathParts rel with
      | [] => .ok "movies"
      | head :: _ =>
        let h := pyLower head
        if h = "tv" ∨ h = "shows" ∨ h = "series" then .ok "tv"
        else .ok "movies"
    else if strat = "sxe" then
      let name := pathNameOf rel
      match py_re_search cfg.classification.tv_sxe_regex name with
      | .error e => .error e
      | .ok b1 =>
        if b1 then .ok "tv"
        else if cfg.classification.enable_season_episode_words then
          match py_re_search cfg.classification.tv_season_episode_regex name with
          | .error e => .error e
          | .ok b2 => if b2 then .ok "tv" else .ok "movies"
        else .ok "movies"
    else .ok "movies"

-- ---------------------------------------------------------------------
-- router.py: derived facts
-- ---------------------------------------------------------------------

/-- `_res_label_from_dimensions`. -/
def res_label_from_dimensions (cfg : ClassificationConfig)
    (width height : Option Int) : String :=
  -- `if width and width >= threshold` — `0` is falsy in Python
  if (match width with
      | some w => decide (w ≠ 0) && decide (w ≥ cfg.horizontal_4k_threshold)
      | none => false) then
    "2160p"
  else
    match height with
    | none => "SD"
    | some h =>
      if h ≥ (alGet cfg.vertical_thresholds "2160p").getD 2000 then "2160p"
      else if h ≥ (alGet cfg.vertical_thresholds "1080p").getD 1000 then "1080p"
      else if h ≥ (alGet cfg.vertical_thresholds "720p").getD 700 then "720p"
      else "SD"

/-- `_is_hdr` (router.py): the per-pattern `try/except re.error` means an
invalid pattern is simply skipped. -/
def is_hdr (cfg : SiftConfig) (item : Item) : Bool :=
  match item.ffprobe with
  | none => false
  | some ff =>
    if ¬ ff.ok then false
    else
      let transfer := ff.video.bind (·.color_transfer)
      let transferHit :=
        match transfer with
        | some t =>
          decide (t ≠ "") && (cfg.classification.hdr_color_transfer.map pyLower).contains (pyLower t)
        | none => false
      if transferHit then true
      else
        let parts :=
          (match ff.video.bind (·.profile) with
           | some p => if p ≠ "" then [p] else []
           | none => []) ++
          (match ff.video.bind (·.side_data_types) with
           | some l => l
           | none => []) ++
          (match ff.video.bind (·.tags) with
           | some kvs => kvs.map (fun kv => kv.1 ++ "=" ++ kv.2)
           | none => [])
        let blob := pyLower (joinWith " | " parts)
        cfg.classification.hdr_side_data_regex.any
          (fun pat => pat.valid && pat.search blob)

/-- `_is_problem_audio` (router.py). -/
def is_problem_audio (cfg : SiftConfig) (item : Item) : Bool :=
  match item.ffprobe with
  | none => false
  | some ff =>
    if ¬ ff.ok then false
    else
      let acodec := ff.audio.bind (·.codec)
      let aprof := ff.audio.bind (·.profile)
      let codecHit :=
        match acodec with
        | some c =>
          decide (c ≠ "") && (cfg.classification.problem_audio_codecs.map pyLower).contains (pyLower c)
        | none => false
      if codecHit then true
      else
        let blob := pyLower (joinWith " "
          ((match acodec with | some c => [c] | none => []) ++
           (match aprof with | some p => [p] | none => [])))
        cfg.classification.problem_audio_profile_regex.any
          (fun pat => pat.valid && pat.search blob)

/-- The derived facts dict (fixed keys, see `derive_facts`). -/
structure Facts where
  res : String
  hdr : Bool
  vcodec : Option String
  acodec : Option String
  min_audio_channels : Int
  problem_audio : Bool
  deriving Repr, DecidableEq

/-- `derive_facts` (router.py). -/
def derive_facts (cfg : SiftConfig) (item : Item) : Facts :=
  match item.ffprobe with
  | none => ⟨"SD", false, none, none, 0, false⟩
  | some ff =>
    if ¬ ff.ok then ⟨"SD", false, none, none, 0, false⟩
    else
      { res := res_label_from_dimensions cfg.classification
          (ff.video.bind (·.width)) (ff.video.bind (·.height))
        hdr := is_hdr cfg item
        vcodec := ff.video.bind (·.codec)
        acodec := ff.audio.bind (·.codec)
        -- `_as_int(...) or 0`: `None` and `0` both give `0`
        min_audio_channels := (ff.audio.bind (·.channels)).getD 0
        problem_audio := is_problem_audio cfg item }

-- ---------------------------------------------------------------------
-- router.py: tier matching
-- ---------------------------------------------------------------------

/-- The dynamic value of `facts.get(key)`: the fact dict holds strings,
bools, ints and `None`. -/
inductive FactVal where
  | none
  | str (s : String)
  | int (n : Int)
  | bool (b : Bool)
  deriving Repr, DecidableEq

/-- `facts.get(key)` for the fixed fact keys (anything else is absent). -/
def factsGet (f : Facts) (key : String) : FactVal :=
  if key = "res" then .str f.res
  else if key = "hdr" then .bool f.hdr
  else if key = "vcodec" then (match f.vcodec with | some s => .str s | none => .none)
  else if key = "acodec" then (match f.acodec with | some s => .str s | none => .none)
  else if key = "min_audio_channels" then .int f.min_audio_channels
  else if key = "problem_audio" then .bool f.problem_audio
  else .none

/-- `_as_int` on a fact value (`int(...)` under `try/except`). -/
def as_int_fact : FactVal → Option Int
  | .int n => some n
  | .bool b => some (if b then 1 else 0)
  | .str s => pyParseInt s
  | .none => none

/-- `_as_str` on a fact value. -/
def as_str_fact : FactVal → Option String
  | .str s => some s
  | _ => none

/-- `int(...)` on a rule scalar; `none` means the call raises. -/
def rvalToInt : RVal → Option Int
  | .int n => some n
  | .float q => some (truncRat q)
  | .bool b => some (if b then 1 else 0)
  | .str s => pyParseInt s

/-- Python `==` between a non-string fact value and a rule scalar
(`True == 1`, `1 == 1.0`, cross-type otherwise `False`). -/
def pyEqFactRVal : FactVal → RVal → Bool
  | .int n, .int m => n = m
  | .int n, .float q => (n : Rat) = q
  | .int n, .bool b => n = (if b then 1 else 0)
  | .bool b, .int m => (if b then (1 : Int) else 0) = m
  | .bool b, .float q => ((if b then (1 : Int) else 0) : Rat) = q
  | .bool b, .bool c => b = c
  | _, _ => false

/-- `_match_value` (router.py).  The only raise site is `int(rule["min"])`
/ `int(rule["max"])` on a non-numeric bound. -/
def match_value : FactVal → Rule → Exc Bool
  | a, .table eqv mn mx rgx =>
    match eqv with
    | some r => match_value a r
    | none =>
      if mn.isSome || mx.isSome then
        match as_int_fact a with
        | none => .ok false
        | some n =>
          -- `if "min" in rule and a < int(rule["min"]): return False`
          match mn with
          | some bound =>
            match rvalToInt bound with
            | none => .error ⟨"ValueError", "invalid literal for int with base 10"⟩
            | some b =>
              if n < b then .ok false
              else
                match mx with
                | some bound2 =>
                  match rvalToInt bound2 with
                  | none => .error ⟨"ValueError", "invalid literal for int with base 10"⟩
                  | some b2 => .ok (decide (¬ n > b2))
                | none => .ok true
          | none =>
            match mx with
            | some bound2 =>
              match rvalToInt bound2 with
              | none => .error ⟨"ValueError", "invalid literal for int with base 10"⟩
              | some b2 => .ok (decide (¬ n > b2))
            | none => .ok true  -- unreachable: mn or mx is some
      else
        match rgx with
        | some pv =>
          -- `pat = rule.get("regex")`: non-string pattern or non-string
          -- actual fail closed; `re.error` is caught and fails closed.
          match pv, as_str_fact a with
          | some pat, some s => .ok (pat.valid && pat.search s)
          | _, _ => .ok false
        | none => .ok false
  | a, .list xs =>
    match a with
    | .none => .ok false
    | .str s =>
      let low := pyLower s
      .ok (xs.any (fun x => match x with | .str t => pyLower t = low | _ => false))
    | _ => .ok (xs.any (fun x => pyEqFactRVal a x))
  | a, .scalar (.str r) =>
    .ok (match a with | .str s => pyLower s = pyLower r | _ => false)
  | a, .scalar v => .ok (pyEqFactRVal a v)

/-- The inner `for key, rule in req.items()` loop of `tier_for_item`:
short-circuits on the first non-matching key, propagates raises. -/
def reqLoop (facts : Facts) : List (String × Rule) → Exc Bool
  | [] => .ok true
  | (k, r) :: rest =>
    match match_value (factsGet facts k) r with
    | .error e => .error e
    | .ok b => if b then reqLoop facts rest else .ok false

/-- The outer tier loop of `tier_for_item`: first tier whose requirement
table is empty or fully matches. -/
def tierLoop (facts : Facts) : List TierDef → Exc (Option TierDef)
  | [] => .ok none
  | t :: ts =>
    if t.requires.isEmpty then .ok (some t)
    else
      match reqLoop facts t.requires with
      | .error e => .error e
      | .ok ok => if ok then .ok (some t) else tierLoop facts ts

/-- `tier_for_item` (router.py): first match, else the tier whose id
upper-cases to `"T4"`, else the last tier (`tier[-1]` raises `IndexError`
on an empty list, which validated configurations exclude). -/
def tier_for_item (cfg : SiftConfig) (item : Item) : Exc TierDef :=
  match tierLoop (derive_facts cfg item) cfg.tier_model.tier with
  | .error e => .error e
  | .ok (some t) => .ok t
  | .ok none =>
    match cfg.tier_model.tier.find? (fun t => pyUpper t.id = "T4") with
    | some t => .ok t
    | none =>
      match cfg.tier_model.tier.getLast? with
      | some t => .ok t
      | none => .error ⟨"IndexError", "list index out of range"⟩

-- Spec-side description of tier selection (written from the words of
-- spec.md section 4.3, for the C2 refinement comparison).

/-- Spec-described Boolean matching semantics (total; defined values
under the well-formedness condition below). -/
def specMatch : FactVal → Rule → Bool
  | a, .table eqv mn mx rgx =>
    match eqv with
    | some r => specMatch a r
    | none =>
      if mn.isSome || mx.isSome then
        match as_int_fact a with
        | none => false
        | some n =>
          (match mn with
           | some bound => decide (n ≥ (rvalToInt bound).getD 0)
           | none => true) &&
          (match mx with
           | some bound => decide (n ≤ (rvalToInt bound).getD 0)
           | none => true)
      else
        match rgx with
        | some (some pat) =>
          (match as_str_fact a with
           | some s => pat.valid && pat.search s
           | none => false)
        | _ => false
  | a, .list xs =>
    match a with
    | .none => false
    | .str s => xs.any (fun x => match x with | .str t => pyLower t = pyLower s | _ => false)
    | _ => xs.any (fun x => pyEqFactRVal a x)
  | a, .scalar (.str r) => (match a with | .str s => pyLower s = pyLower r | _ => false)
  | a, .scalar v => pyEqFactRVal a v

-- ---------------------------------------------------------------------
-- router.py: route_destination
-- ---------------------------------------------------------------------

/-- `route_destination` (router.py): `(media_type, tier, rel_dest, facts)`.
Raises `ValueError` on a missing/empty relpath and propagates raises from
media-type inference and tier matching. -/
def route_destination (cfg : SiftConfig) (item : Item) :
    Exc (String × TierDef × PPath × Facts) :=
  match item.relpath with
  | none => .error ⟨"ValueError", "inventory item missing relpath"⟩
  | some rel =>
    if rel = "" then .error ⟨"ValueError", "inventory item missing relpath"⟩
    else
      match infer_media_type cfg item with
      | .error e => .error e
      | .ok mt =>
        match tier_for_item cfg item with
        | .error e => .error e
        | .ok tier => .ok (mt, tier, pathParts rel, derive_facts cfg item)

-- ---------------------------------------------------------------------
-- router.py: _parse_sxe_from_name (hard-coded regex, implemented
-- concretely): (?i)\bs\s*(\d{1,2})\s*[._ -]?\s*e\s*(\d{1,3})\b
-- ---------------------------------------------------------------------

def digitVal (c : Char) : Nat := c.toNat - '0'.toNat

def digitsToNat (l : List Char) : Nat :=
  l.foldl (fun acc c => acc * 10 + digitVal c) 0

/-- `e\s*(\d{1,3})\b`: episode digits with a trailing word boundary.
Greedy backtracking collapses to: the maximal digit run must have length
1–3 and be followed by a non-word character or the end. -/
def sxeEpisode (s : Nat) (l : List Char) : Option (Nat × Nat) :=
  let l1 := l.dropWhile pySpace
  let ds := l1.takeWhile Char.isDigit
  if ds.length = 0 ∨ ds.length > 3 then none
  else
    match (l1.drop ds.length).head? with
    | some c => if isWordChar c then none else some (s, digitsToNat ds)
    | none => some (s, digitsToNat ds)

/-- `\s*[._ -]?\s*e` after the season digits.  After the greedy `\s*` the
next character cannot be a space, so the optional separator class reduces
to `.`/`_`/`-` and the match is deterministic. -/
def sxeAfterSeason (s : Nat) (l : List Char) : Option (Nat × Nat) :=
  let l1 := l.dropWhile pySpace
  let l2 :=
    match l1 with
    | c :: rest => if c = '.' ∨ c = '_' ∨ c = '-' then rest.dropWhile pySpace else l1
    | [] => l1
  match l2 with
  | c :: rest => if charLower c = 'e' then sxeEpisode s rest else none
  | [] => none

/-- `(\d{1,2})` season digits, greedy (two digits, then one) with full
backtracking into the rest of the pattern. -/
def sxeSeason (l : List Char) : Option (Nat × Nat) :=
  match l with
  | [] => none
  | d1 :: rest =>
    if ¬ d1.isDigit then none
    else
      match rest with
      | d2 :: rest2 =>
        if d2.isDigit then
          match sxeAfterSeason (10 * digitVal d1 + digitVal d2) rest2 with
          | some r => some r
          | none => sxeAfterSeason (digitVal d1) rest
        else sxeAfterSeason (digitVal d1) rest
      | [] => sxeAfterSeason (digitVal d1) []

/-- Attempt the SXE pattern at the current position (which must hold `s`
or `S`; the `\b` before it is checked by the caller). -/
def sxeTry (l : List Char) : Option (Nat × Nat) :=
  match l with
  | c :: rest => if charLower c = 's' then sxeSeason (rest.dropWhile pySpace) else none
  | [] => none

/-- `re.search`: leftmost match; returns `(start index, season, episode)`. -/
def sxeScan : Option Char → Nat → List Char → Option (Nat × Nat × Nat)
  | _, _, [] => none
  | prev, idx, c :: rest =>
    let boundary := match prev with | some p => ! isWordChar p | none => true
    if boundary then
      match sxeTry (c :: rest) with
      | some (s, e) => some (idx, s, e)
      | none => sxeScan (some c) (idx + 1) rest
    else sxeScan (some c) (idx + 1) rest

/-- `re.sub(r"[._\-]+", " ", s)`: collapse separator runs to one space. -/
def collapseSepsAux : Bool → List Char → List Char
  | _, [] => []
  | prev, c :: rest =>
    if c = '.' ∨ c = '_' ∨ c = '-' then
      if prev then collapseSepsAux true rest
      else ' ' :: collapseSepsAux true rest
    else c :: collapseSepsAux false rest

def collapseSeps (s : String) : String := ⟨collapseSepsAux false s.data⟩

/-- `_parse_sxe_from_name` (router.py): `(show, season2, episode2)`. -/
def parse_sxe_from_name (name : String) :
    Option String × Option String × Option String :=
  match sxeScan none 0 name.data with
  | none => (none, none, none)
  | some (idx, s, e) =>
    let show0 := pyStrip ⟨name.data.take idx⟩
    let show1 := pyStrip (collapseSeps show0)
    ((if show1 = "" then none else some show1), some (fmt02 s), some (fmt02 e))

/-- `re.search(r"\b(19|20)\d{2}\b", stem)`: a year starts at a word
boundary, is `19xx`/`20xx`, and ends at a word boundary. -/
def yearAt (l : List Char) : Bool :=
  match l with
  | a :: b :: c :: d :: rest =>
    ((a = '1' && b = '9') || (a = '2' && b = '0')) && c.isDigit && d.isDigit &&
      (match rest.head? with | some x => ! isWordChar x | none => true)
  | _ => false

def yearScan : Option Char → Nat → List Char → Option (Nat × String)
  | _, _, [] => none
  | prev, idx, c :: rest =>
    let boundary := match prev with | some p => ! isWordChar p | none => true
    if boundary && yearAt (c :: rest) then some (idx, ⟨(c :: rest).take 4⟩)
    else yearScan (some c) (idx + 1) rest

-- ---------------------------------------------------------------------
-- router.py: _sanitize_filename and render cleanup
-- ---------------------------------------------------------------------

/-- `_sanitize_filename` (router.py). -/
def sanitize_filename (name : String) : String :=
  let n1 := pyReplace (pyReplace name "/" "_") "\\" "_"
  let n2 := pyStrip (collapseWsStr n1)
  ⟨n2.data.filter (fun c => ¬ (c = '\x00' ∨ c = '<' ∨ c = '>' ∨ c = ':' ∨
      c = '"' ∨ c = '/' ∨ c = '\\' ∨ c = '|' ∨ c = '?' ∨ c = '*'))⟩

/-- `re.sub(r"\[\s*\]", "", s)`-style removal of an empty bracket pair
(`op` then whitespace then `cl`); `skip` drops already-matched chars. -/
def rmEmptyBrk (op cl : Char) : Nat → List Char → List Char
  | _, [] => []
  | k+1, _ :: rest => rmEmptyBrk op cl k rest
  | 0, c :: rest =>
    if c = op then
      let ws := rest.takeWhile pySpace
      match (rest.drop ws.length).head? with
      | some c2 =>
        if c2 = cl then rmEmptyBrk op cl (ws.length + 1) rest
        else c :: rmEmptyBrk op cl 0 rest
      | none => c :: rmEmptyBrk op cl 0 rest
    else c :: rmEmptyBrk op cl 0 rest

-- ---------------------------------------------------------------------
-- router.py: render_name
-- ---------------------------------------------------------------------

/-- The tier-flag part of the flag assembly inside `render_name`: the
selected tier's flags minus the configured judgement set; on any raise
from routing (`t = None`) there are no tier flags. -/
def tierFlagsOf (cfg : SiftConfig) (item : Item) : List String :=
  match route_destination cfg item with
  | .ok (_, tier, _, _) =>
    tier.flags.filter (fun f => ¬ cfg.flags.judgement_flags.contains f)
  | .error _ => []

/-- The dynamic HFR flag (router.py lines 447–457). -/
def hfrFlags (cfg : SiftConfig) (item : Item) : List String :=
  if cfg.flags.enable_hfr_flag then
    match (item.ffprobe.bind (·.video)).bind (·.fps) with
    | some fps => if fps > cfg.flags.hfr_fps_threshold then ["HFR"] else []
    | none => []
  else []

/-- The dynamic low-bitrate flag (router.py lines 459–470). -/
def lowFlags (cfg : SiftConfig) (item : Item) : List String :=
  if cfg.flags.enable_low_bitrate_flag then
    match alGet cfg.flags.low_bitrate_thresholds (derive_facts cfg item).res,
          item.ffprobe.bind (·.overall_bitrate_bps) with
    | some th, some bps =>
      -- `if thr and ... and bps < thr`: a zero threshold is falsy
      if th ≠ 0 ∧ bps < (th : Rat) then [cfg.flags.low_bitrate_flag_name] else []
    | _, _ => []
  else []

/-- The flag-list assembly inside `render_name` (router.py lines
427–472): tier flags filtered by the judgement set, then the dynamic HFR
and low-bitrate flags. -/
def flagsFor (cfg : SiftConfig) (item : Item) : List String :=
  tierFlagsOf cfg item ++ hfrFlags cfg item ++ lowFlags cfg item

/-- The body of `render_name` (router.py) up to (but excluding) the
maximum-length clamp, for a present, nonempty relpath `rel`. -/
def render_core (cfg : SiftConfig) (item : Item) (rel : String) : String :=
  let nameComp := pathNameOf rel
  let stem := pyStemOf nameComp
  let extStr : String := ⟨(pySuffixOf nameComp).data.drop 1⟩
  let facts := derive_facts cfg item
  let sxe := parse_sxe_from_name stem
  let showOpt := sxe.1
  let season2 := (sxe.2.1).getD ""
  let episode2 := (sxe.2.2).getD ""
  let (template, year, title0) :=
    match showOpt with
    | some _ => (cfg.naming.tv_template, "", (none : Option String))
    | none =>
      match yearScan none 0 stem.data with
      | some (idx, y) =>
        let t0 := pyStrip ⟨stem.data.take idx⟩
        let t1 := pyStrip (collapseSeps t0)
        (cfg.naming.movie_template, y, if t1 = "" then none else some t1)
      | none => (cfg.naming.movie_template, "", none)
  let title : Option String :=
    if cfg.naming.fallback_to_stem ∧ showOpt = none then
      match title0 with
      | some t => some t
      | none => some stem
    else title0
  let vcodec_tag :=
    match facts.vcodec with
    | some v => (alGet cfg.naming.vcodec_map (pyLower v)).getD (pyUpper v)
    | none => ""
  let acodec_tag :=
    match facts.acodec with
    | some v => (alGet cfg.naming.acodec_map (pyLower v)).getD (pyUpper v)
    | none => ""
  let audio_codec := acodec_tag
  let ch := facts.min_audio_channels
  let audio_tag :=
    if ch ≥ 8 then "7.1ch"
    else if ch ≥ 6 then "5.1ch"
    else if ch ≥ 2 then toString ch ++ ".0ch"
    else if ch = 1 then "1.0ch"
    else ""
  let audio_channels := if ch ≠ 0 then toString ch else ""
  let hdr := if facts.hdr then "HDR" else ""
  let flags_val := joinWith " " (flagsFor cfg item)
  let repl : List (String × String) :=
    [("title", title.getD ""), ("year", year), ("show", showOpt.getD ""),
     ("season2", season2), ("episode2", episode2), ("stem", stem),
     ("res", facts.res), ("hdr_sep", cfg.naming.hdr_sep), ("hdr", hdr),
     ("vcodec_tag", vcodec_tag), ("acodec_tag", acodec_tag),
     ("audio_tag", audio_tag), ("audio_codec", audio_codec),
     ("audio_channels", audio_channels), ("flags_sep", cfg.naming.flags_sep),
     ("flags", flags_val), ("ext", extStr)]
  let name0 := repl.foldl
    (fun acc kv => pyReplace acc ("\x7b" ++ kv.1 ++ "\x7d") kv.2) template
  let name1 := pyStrip (collapseWsStr name0)
  let name2 : String := ⟨rmEmptyBrk '[' ']' 0 name1.data⟩
  let name3 : String := ⟨rmEmptyBrk '(' ')' 0 name2.data⟩
  let name4 := pyStrip name3
  if cfg.naming.sanitize then sanitize_filename name4 else name4

/-- The `"." + ext` suffix reattached by the length clamp (empty when the
relpath has no extension). -/
def extPartOf (rel : String) : String :=
  let extStr : String := ⟨(pySuffixOf (pathNameOf rel)).data.drop 1⟩
  if extStr ≠ "" then "." ++ extStr else ""

/-- `render_name` (router.py). -/
def render_name (cfg : SiftConfig) (item : Item) : Exc String :=
  match item.relpath with
  | none => .error ⟨"ValueError", "inventory item missing relpath"⟩
  | some rel =>
    if rel = "" then .error ⟨"ValueError", "inventory item missing relpath"⟩
    else
      let name5 := render_core cfg item rel
      let maxLen := cfg.naming.max_filename_len
      if maxLen ≠ 0 ∧ (name5.length : Int) > maxLen then
        let ext_part := extPartOf rel
        let base_len : Int := maxLen - ext_part.length
        .ok (pyRstrip (pySliceTo name5 base_len) ++ ext_part)
      else .ok name5

-- ---------------------------------------------------------------------
-- inventory.py: _normalize_stem
-- ---------------------------------------------------------------------

/-- `re.sub(r"\[.*?\]", " ", s)`: non-greedy bracket spans become one
space.  While a candidate span is open, scanned characters are buffered
(reversed); if the input ends without a closer they are restored. -/
def stripDelimsAux (op cl : Char) : Option (List Char) → List Char → List Char
  | none, [] => []
  | some bufRev, [] => op :: bufRev.reverse
  | none, c :: rest =>
    if c = op then stripDelimsAux op cl (some []) rest
    else c :: stripDelimsAux op cl none rest
  | some bufRev, c :: rest =>
    if c = cl then ' ' :: stripDelimsAux op cl none rest
    else stripDelimsAux op cl (some (c :: bufRev)) rest

/-- Case-insensitive literal match of `w` (given lower-case) at the head. -/
def ciMatchWord (w l : List Char) : Bool :=
  (l.take w.length).map charLower = w

/-- A generic `re.sub` scanner for patterns that begin at a `\b` word
boundary: `m` attempts a match at the head, returning the number of
characters consumed (≥ 1) and the replacement; `skip` drops characters
already consumed by a previous match. -/
def scanSubAux (m : List Char → Option (Nat × List Char)) :
    Option Char → Nat → List Char → List Char
  | _, _, [] => []
  | _, k+1, c :: rest => scanSubAux m (some c) k rest
  | prev, 0, c :: rest =>
    let boundary := match prev with | some p => ! isWordChar p | none => true
    if boundary then
      match m (c :: rest) with
      | some (n, repl) => repl ++ scanSubAux m (some c) (n - 1) rest
      | none => c :: scanSubAux m (some c) 0 rest
    else c :: scanSubAux m (some c) 0 rest

def noiseWords : List (List Char) :=
  [("sample" : String).data, ("trailer" : String).data, ("extra" : String).data,
   ("bonus" : String).data, ("featurette" : String).data]

/-- `\b(sample|trailer|extra|bonus|featurette)\b` (ignore-case). -/
def tryNoise (l : List Char) : Option (Nat × List Char) :=
  noiseWords.findSome? (fun w =>
    if ciMatchWord w l &&
       (match (l.drop w.length).head? with
        | some c => ! isWordChar c
        | none => true) then
      some (w.length, [' '])
    else none)

/-- `\b\d{3,4}[pi]\b` (ignore-case): greedy digits backtrack to nothing
unless the maximal digit run has length 3 or 4 and is followed by `p`/`i`
and a word boundary. -/
def tryResTok (l : List Char) : Option (Nat × List Char) :=
  let ds := l.takeWhile Char.isDigit
  if ds.length = 3 ∨ ds.length = 4 then
    match l.drop ds.length with
    | p :: rest =>
      if (charLower p = 'p' ∨ charLower p = 'i') &&
         (match rest.head? with | some c => ! isWordChar c | none => true) then
        some (ds.length + 1, [' '])
      else none
    | [] => none
  else none

/-- `\b[248]k\b` (ignore-case). -/
def try248k (l : List Char) : Option (Nat × List Char) :=
  match l with
  | d :: k :: rest =>
    if (d = '2' ∨ d = '4' ∨ d = '8') && charLower k = 'k' &&
       (match rest.head? with | some c => ! isWordChar c | none => true) then
      some (2, [' '])
    else none
  | _ => none

/-- `_normalize_stem` (inventory.py). -/
def normalize_stem (stem : String) : String :=
  let s1 : String := ⟨stripDelimsAux '[' ']' none stem.data⟩
  let s2 : String := ⟨stripDelimsAux '(' ')' none s1.data⟩
  let s3 := collapseSeps s2
  let s4 := collapseWsStr s3
  let s5 : String := ⟨scanSubAux tryNoise none 0 s4.data⟩
  let s6 : String := ⟨scanSubAux tryResTok none 0 s5.data⟩
  let s7 : String := ⟨scanSubAux try248k none 0 s6.data⟩
  let s8 := collapseWsStr s7
  pyLower (pyStrip s8)

-- ---------------------------------------------------------------------
-- inventory.py: _mark_samples
-- ---------------------------------------------------------------------

/-- First pass of `_mark_samples`: items with an `ok` probe and too few
video streams, or a too-short numeric duration, get a skip reason. -/
def pass1Mark (sd : SampleDetectionConfig) (it : Item) : Item :=
  match it.ffprobe with
  | none => it
  | some ff =>
    if ¬ ff.ok then it
    else
      let vc := match ff.stream_counts with
                | some sc => sc.video.getD 0
                | none => 0
      if vc < sd.min_video_streams then
        { it with skip_reason := some "no_video_stream" }
      else
        match ff.duration_s with
        | some d =>
          if d < sd.min_duration_s then
            { it with skip_reason := some "sample_too_short" }
          else it
        | none => it

/-- The grouping key of the second pass: only surviving items with a
string relpath and a nonempty normalized stem are grouped. -/
def groupKey (it : Item) : Option String :=
  if it.skip_reason.isSome then none
  else
    match it.relpath with
    | none => none
    | some rel =>
      let k := normalize_stem (pyStemOf (pathNameOf rel))
      if k = "" then none else some k

/-- The `max_duration` fold of the second pass: starts at `0.0`. -/
def groupMax (grp : List Item) : Rat :=
  grp.foldl (fun acc it =>
    match it.ffprobe.bind (·.duration_s) with
    | some d => if d > acc then d else acc
    | none => acc) 0

/-- `_mark_samples` (inventory.py), as a function on the item list (the
Python code mutates the dicts in place). -/
def mark_samples (cfg : SiftConfig) (items : List Item) : List Item :=
  if ¬ cfg.sample_detection.enabled then items
  else
    let items1 := items.map (pass1Mark cfg.sample_detection)
    if ¬ cfg.sample_detection.prefer_longest_variant then items1
    else
      items1.map (fun it =>
        match groupKey it with
        | none => it
        | some k =>
          let grp := items1.filter (fun j => groupKey j = some k)
          if grp.length ≤ 1 then it
          else
            match it.ffprobe.bind (·.duration_s) with
            | some d =>
              if d < groupMax grp then
                { it with skip_reason := some "sample_shorter_variant" }
              else it
            | none => it)

-- ---------------------------------------------------------------------
-- cache.py: read_cache validation
-- ---------------------------------------------------------------------

/-- A parsed JSON value (the cache file after `json.loads`). -/
inductive JsonVal where
  | null
  | bool (b : Bool)
  | int (n : Int)
  | float (q : Rat)
  | str (s : String)
  | arr (xs : List JsonVal)
  | obj (kvs : List (String × JsonVal))

/-- Python `int(...)` on a JSON value; `.error` is the (unstructured)
`TypeError`/`ValueError` the interpreter raises. -/
def pyIntOfJson : JsonVal → Exc Int
  | .int n => .ok n
  | .float q => .ok (truncRat q)
  | .bool b => .ok (if b then 1 else 0)
  | .str s =>
    match pyParseInt s with
    | some n => .ok n
    | none => .error ⟨"ValueError", "invalid literal for int with base 10"⟩
  | .null => .error ⟨"TypeError", "int argument must not be NoneType"⟩
  | .arr _ => .error ⟨"TypeError", "int argument must not be list"⟩
  | .obj _ => .error ⟨"TypeError", "int argument must not be dict"⟩

/-- Python truthiness of a JSON value. -/
def pyTruthy : JsonVal → Bool
  | .null => false
  | .bool b => b
  | .int n => n ≠ 0
  | .float q => q ≠ 0
  | .str s => s ≠ ""
  | .arr xs => ¬ xs.isEmpty
  | .obj kvs => ¬ kvs.isEmpty

/-- Python `str(...)` of a JSON value (float formatting is abstracted;
the claims only exercise string-valued roots). -/
def pyStrOfJson : JsonVal → String
  | .str s => s
  | .int n => toString n
  | .bool b => if b then "True" else "False"
  | .null => "None"
  | .float q => toString q
  | .arr _ => "<list>"
  | .obj _ => "<dict>"

/-- `CACHE_VERSION` (cache.py). -/
def CACHE_VERSION : Int := 2

/-- The validation part of `read_cache` (cache.py lines 49–65), applied
to the parsed JSON payload. -/
def read_cache_validate (cfg : SiftConfig) (data : JsonVal) : Exc JsonVal :=
  match data with
  | .obj kvs =>
    let sv := (alGet kvs "schema_version").getD (.int (-1))
    match pyIntOfJson sv with
    | .error e => .error e
    | .ok n =>
      if n ≠ CACHE_VERSION then
        .error ⟨"CacheError", "Cache schema mismatch"⟩
      else
        let inc := (alGet kvs "incoming_root").getD .null
        if pyTruthy inc ∧ pyStrOfJson inc ≠ cfg.paths.incoming then
          .error ⟨"CacheError", "Cache was generated for a different incoming_root"⟩
        else .ok data
  | _ => .error ⟨"CacheError", "Cache file must be a JSON object"⟩

-- ---------------------------------------------------------------------
-- transfer.py: filesystem model
-- ---------------------------------------------------------------------

structure FSFile where
  path : PPath
  inode : Nat
  deriving Repr, DecidableEq

/-- The filesystem as the transfer engine observes it.  The `…Raises`
association lists inject the OS errors the corresponding Python calls can
raise (`iterdir`, `mkdir`, chunked copy, `os.rename`, `os.remove`). -/
structure FS where
  files : List FSFile
  dirs : List PPath
  listRaises : List (PPath × PyExn)
  mkdirRaises : List (PPath × PyExn)
  copyRaises : List (PPath × PyExn)
  renameRaises : List (PPath × PyExn)
  removeRaises : List (PPath × PyExn)
  nextInode : Nat
  deriving Repr, DecidableEq

def lookupFile (fs : FS) (p : PPath) : Option Nat :=
  (fs.files.find? (fun f => f.path = p)).map (·.inode)

def fileExists (fs : FS) (p : PPath) : Bool := (lookupFile fs p).isSome

def dirExists (fs : FS) (p : PPath) : Bool := fs.dirs.contains p

/-- `Path.exists()`: a file or a directory. -/
def pexists (fs : FS) (p : PPath) : Bool := fileExists fs p || dirExists fs p

def raiseFor (l : List (PPath × PyExn)) (p : PPath) : Option PyExn :=
  (l.find? (fun kv => kv.1 = p)).map (·.2)

/-- `_same_file` (transfer.py): `os.path.samefile` compares inodes;
`OSError` (either side missing) is caught and yields `False`. -/
def same_file (fs : FS) (a b : PPath) : Bool :=
  match lookupFile fs a, lookupFile fs b with
  | some i, some j => i = j
  | _, _ => false

/-- The `"name (n).ext"` pattern of `_find_existing_variant`:
`^stem \((\d+)\)suffix$`. -/
def isDedupName (stem sfx name : String) : Bool :=
  let pre := stem ++ " ("
  let post := ")" ++ sfx
  if pre.data.isPrefixOf name.data then
    let rest := name.data.drop pre.data.length
    let ds := rest.takeWhile Char.isDigit
    decide (ds.length ≥ 1) && (rest.drop ds.length = post.data)
  else false

/-- `_find_existing_variant` (transfer.py).  Note it is called outside
any `try/except`: a directory-listing error propagates to the caller.
`parent.iterdir()` on a parent that exists as a plain file raises
`NotADirectoryError`; an injected listing failure raises its error. -/
def find_existing_variant (fs : FS) (dst : PPath) : Exc (Option PPath) :=
  let parent := dst.dropLast
  if ¬ pexists fs parent then .ok none
  else
    match raiseFor fs.listRaises parent with
    | some e => .error e
    | none =>
      if dirExists fs parent then
        let dname := dst.getLastD ""
        let stem := pyStemOf dname
        let sfx := pySuffixOf dname
        match (fs.files.filter (fun f => f.path.dropLast = parent)).find?
            (fun f =>
              let nm := f.path.getLastD ""
              nm = dname || isDedupName stem sfx nm) with
        | some f => .ok (some f.path)
        | none => .ok none
      else .error ⟨"NotADirectoryError", "iterdir on a file"⟩

/-- `_dedup_path` (transfer.py): the first free `"stem (i)suffix"` name.
Defined with the number of files as fuel (some candidate among the first
`|files|+1` is always free). -/
def dedup_path_from (fs : FS) (parent : PPath) (stem sfx : String) :
    Nat → Nat → PPath
  | 0, i => parent ++ [stem ++ " (" ++ toString i ++ ")" ++ sfx]
  | fuel+1, i =>
    let cand := parent ++ [stem ++ " (" ++ toString i ++ ")" ++ sfx]
    if fileExists fs cand ∨ dirExists fs cand then
      dedup_path_from fs parent stem sfx fuel (i + 1)
    else cand

def dedup_path (fs : FS) (dst : PPath) : PPath :=
  if ¬ pexists fs dst then dst
  else
    dedup_path_from fs dst.dropLast (pyStemOf (dst.getLastD ""))
      (pySuffixOf (dst.getLastD "")) (fs.files.length + 1) 1

-- ---------------------------------------------------------------------
-- transfer.py: filesystem operations
-- ---------------------------------------------------------------------

def prefixesOf (p : PPath) : List PPath :=
  (List.range (p.length + 1)).map (fun n => p.take n)

/-- `mkdir(parents=True, exist_ok=True)` of a directory. -/
def addDirs (fs : FS) (p : PPath) : FS :=
  let newDirs := (prefixesOf p).foldl
    (fun ds q => if ds.contains q then ds else ds ++ [q]) fs.dirs
  { fs with dirs := newDirs }

def addFile (fs : FS) (p : PPath) : FS :=
  if fileExists fs p then fs
  else { fs with files := fs.files ++ [⟨p, fs.nextInode⟩],
                 nextInode := fs.nextInode + 1 }

/-- `_ensure_parent` (transfer.py). -/
def ensure_parent (cfg : SiftConfig) (fs : FS) (dst : PPath) : Exc FS :=
  if cfg.io.mkdirs then
    match raiseFor fs.mkdirRaises dst.dropLast with
    | some e => .error e
    | none => .ok (addDirs fs dst.dropLast)
  else .ok fs

/-- `_copy_with_progress` (transfer.py): opening the destination for
writing precedes the chunk loop, so a failing copy can leave a partial
destination file behind. -/
def copy_file (fs : FS) (src dst : PPath) : FS × Option PyExn :=
  if ¬ fileExists fs src then (fs, some ⟨"FileNotFoundError", pathStr src⟩)
  else if ¬ dirExists fs (dst.dropLast) then
    (fs, some ⟨"FileNotFoundError", pathStr dst⟩)
  else
    match raiseFor fs.copyRaises src with
    | some e => (addFile fs dst, some e)
    | none => (addFile fs dst, none)

def moveEntry (fs : FS) (src dst : PPath) : FS :=
  let newFiles := (fs.files.filter (fun f => ¬ f.path = dst)).map
    (fun f => if f.path = src then ⟨dst, f.inode⟩ else f)
  { fs with files := newFiles }

/-- `os.rename` (raises `OSError` cross-device or on a missing parent). -/
def rename_file (fs : FS) (src dst : PPath) : FS × Option PyExn :=
  match raiseFor fs.renameRaises src with
  | some e => (fs, some e)
  | none =>
    if ¬ fileExists fs src then (fs, some ⟨"FileNotFoundError", pathStr src⟩)
    else if ¬ dirExists fs (dst.dropLast) then
      (fs, some ⟨"FileNotFoundError", pathStr dst⟩)
    else (moveEntry fs src dst, none)

/-- `os.remove`. -/
def remove_file (fs : FS) (src : PPath) : FS × Option PyExn :=
  match raiseFor fs.removeRaises src with
  | some e => (fs, some e)
  | none => ({ fs with files := fs.files.filter (fun f => ¬ f.path = src) }, none)

-- ---------------------------------------------------------------------
-- transfer.py: transfer_inventory
-- ---------------------------------------------------------------------

/-- `compute_destination` (transfer.py):
`outgoing_root/{movies|tv}/{tier.folder}/{proposed_name or relpath}`.
Returns `(media_type, tier_id, dst, facts)`. -/
def compute_destination (cfg : SiftConfig) (item : Item) :
    Exc (String × String × PPath × Facts) :=
  match route_destination cfg item with
  | .error e => .error e
  | .ok (mt, tier, relDest0, facts) =>
    let relDest :=
      match item.proposed_name with
      | some p => if p ≠ "" then pathParts p else relDest0
      | none => relDest0
    .ok (mt, tier.id, cfg.paths.outgoing_root ++ [mt, tier.folder] ++ relDest,
      facts)

/-- One per-item record of the transfer detail list; absent dict keys are
`none`. -/
structure Detail where
  relpath : Option String
  src : String
  dst : Option String
  proposed_name : Option String
  action : String
  reason : Option String
  existing_path : Option String
  media_type : Option String
  tier_id : Option String
  facts : Option Facts
  deriving Repr, DecidableEq

/-- Which aggregate counter an item's outcome increments. -/
inductive CounterKind where
  | copied | moved | skipped | failed | nothing
  deriving Repr, DecidableEq

/-- Python truthiness of an optional string (`""` and absent are falsy). -/
def truthyOpt : Option String → Option String
  | some s => if s = "" then none else some s
  | none => none

def exnReason (e : PyExn) : String := "exception: " ++ e.cls ++ ": " ++ e.msg

/-- The body of the per-item loop of `transfer_inventory` (transfer.py).
Returns the detail appended for the item (if any), the counter bumped,
and the updated filesystem; `.error` means the exception escapes the
loop and aborts the whole run. -/
def process_item (cfg : SiftConfig) (dry_run only_ok : Bool) (fs : FS)
    (item : Item) : Exc (Option Detail × CounterKind × FS) :=
  match item.path with
  | none => .ok (none, .nothing, fs)
  | some src_s =>
    if src_s = "" then .ok (none, .nothing, fs)
    else
      let src := pathParts src_s
      let rel := item.relpath
      match truthyOpt item.skip_reason with
      | some sr =>
        .ok (some ⟨rel, src_s, none, none, "skip", some sr, none, none, none,
          none⟩, .skipped, fs)
      | none =>
        let probeOk := match item.ffprobe with | some ff => ff.ok | none => false
        if only_ok && ! probeOk then
          .ok (some ⟨rel, src_s, none, none, "skip", some "ffprobe_not_ok",
            none, none, none, none⟩, .skipped, fs)
        else
          match compute_destination cfg item with
          | .error e =>
            .ok (some ⟨rel, src_s, none, none, "fail",
              some ("destination_error: " ++ e.msg), none, none, none, none⟩,
              .failed, fs)
          | .ok (mt, tid, dst, facts) =>
            let pn := dst.getLastD ""
            match find_existing_variant fs dst with
            | .error e => .error e
            | .ok (some ex) =>
              .ok (some ⟨rel, src_s, some (pathStr dst), some pn, "skip",
                some "already_processed", some (pathStr ex), some mt, some tid,
                some facts⟩, .skipped, fs)
            | .ok none =>
              if ¬ pexists fs src then
                .ok (some ⟨rel, src_s, some (pathStr dst), some pn, "skip",
                  some "source_missing", none, some mt, some tid, some facts⟩,
                  .skipped, fs)
              else if pexists fs dst then
                if same_file fs src dst then
                  .ok (some ⟨rel, src_s, some (pathStr dst), some pn, "skip",
                    some "already_present_samefile", none, some mt, some tid,
                    some facts⟩, .skipped, fs)
                else
                  .ok (some ⟨rel, src_s, some (pathStr dst), some pn, "skip",
                    some "already_processed", none, some mt, some tid,
                    some facts⟩, .skipped, fs)
              else
                match ensure_parent cfg fs dst with
                | .error e =>
                  .ok (some ⟨rel, src_s, some (pathStr dst), some pn, "fail",
                    some (exnReason e), none, some mt, some tid, some facts⟩,
                    .failed, fs)
                | .ok fs1 =>
                  if dry_run then
                    .ok (some ⟨rel, src_s, some (pathStr dst), some pn,
                      cfg.io.mode ++ "_dry_run", none, none, some mt, some tid,
                      some facts⟩, .nothing, fs1)
                  else if cfg.io.mode = "copy" then
                    match copy_file fs1 src dst with
                    | (fs2, some e) =>
                      .ok (some ⟨rel, src_s, some (pathStr dst), some pn,
                        "fail", some (exnReason e), none, some mt, some tid,
                        some facts⟩, .failed, fs2)
                    | (fs2, none) =>
                      .ok (some ⟨rel, src_s, some (pathStr dst), some pn,
                        "copied", none, none, some mt, some tid, some facts⟩,
                        .copied, fs2)
                  else if cfg.io.mode = "move" then
                    match rename_file fs1 src dst with
                    | (fs2, none) =>
                      .ok (some ⟨rel, src_s, some (pathStr dst), some pn,
                        "moved", none, none, some mt, some tid, some facts⟩,
                        .moved, fs2)
                    | (fs2, some _) =>
                      match copy_file fs2 src dst with
                      | (fs3, some e) =>
                        .ok (some ⟨rel, src_s, some (pathStr dst), some pn,
                          "fail", some (exnReason e), none, some mt, some tid,
                          some facts⟩, .failed, fs3)
                      | (fs3, none) =>
                        match remove_file fs3 src with
                        | (fs4, some e) =>
                          .ok (some ⟨rel, src_s, some (pathStr dst), some pn,
                            "fail", some (exnReason e), none, some mt, some tid,
                            some facts⟩, .failed, fs4)
                        | (fs4, none) =>
                          .ok (some ⟨rel, src_s, some (pathStr dst), some pn,
                            "moved", none, none, some mt, some tid,
                            some facts⟩, .moved, fs4)
                  else
                    .ok (some ⟨rel, src_s, some (pathStr dst), some pn, "fail",
                      some ("unknown_mode: " ++ cfg.io.mode), none, none, none,
                      none⟩, .failed, fs1)

structure TransferResult where
  copied : Nat
  moved : Nat
  skipped : Nat
  failed : Nat
  details : List Detail
  deriving Repr, DecidableEq

def bumpCounter (c : CounterKind) (r : TransferResult) : TransferResult :=
  match c with
  | .copied => { r with copied := r.copied + 1 }
  | .moved => { r with moved := r.moved + 1 }
  | .skipped => { r with skipped := r.skipped + 1 }
  | .failed => { r with failed := r.failed + 1 }
  | .nothing => r

def consDetail (d : Option Detail) (r : TransferResult) : TransferResult :=
  match d with
  | some d => { r with details := d :: r.details }
  | none => r

/-- `transfer_inventory` (transfer.py) over the item list, threading the
filesystem.  An uncaught per-item exception aborts the whole run. -/
def transfer_inventory (cfg : SiftConfig) (dry_run only_ok : Bool) :
    List Item → FS → Exc (TransferResult × FS)
  | [], fs => .ok (⟨0, 0, 0, 0, []⟩, fs)
  | it :: rest, fs =>
    match process_item cfg dry_run only_ok fs it with
    | .error e => .error e
    | .ok (d, c, fs1) =>
      match transfer_inventory cfg dry_run only_ok rest fs1 with
      | .error e => .error e
      | .ok (r, fs2) => .ok (consDetail d (bumpCounter c r), fs2)

-- ---------------------------------------------------------------------
-- Concrete fixtures (used for validation examples, counterexamples and
-- witnesses)
-- ---------------------------------------------------------------------

/-- A valid pattern that never matches. -/
def pattFalse : PyPattern := ⟨true, fun _ => false⟩

def baseClass : ClassificationConfig :=
  ⟨"folder", pattFalse, false, pattFalse, [], [], [], [], 3800,
   [("2160p", 2000), ("1080p", 1000), ("720p", 700)]⟩

def baseNaming : NamingConfig :=
  ⟨"{stem}.{ext}", "{stem}.{ext}", " ", " ", true, [], [], false, 200⟩

def tierT1 : TierDef := ⟨"T1", "tier1", [], []⟩

def baseFlagsCfg : FlagsConfig :=
  ⟨false, 60, false, [], "LOWBITRATE",
   ["REPLACE_SOON", "REPLACE", "INCOMPATIBLE", "REVIEW", "OK", "KEEP"]⟩

def baseSD : SampleDetectionConfig := ⟨true, 300, 1, true⟩

def baseCfg : SiftConfig :=
  ⟨⟨"/data/incoming", ["data", "outgoing"]⟩, ⟨"copy", true, true⟩,
   baseClass, baseNaming, ⟨[tierT1]⟩, baseFlagsCfg, baseSD⟩

def okFF : FFSummary := ⟨true, none, none, none, none, none⟩

def baseItem : Item :=
  ⟨some "movie.mkv", some "/data/incoming/movie.mkv", none, none, some okFF⟩

-- Validation examples against the repository's own tests
-- (tests/test_sample_detection.py::test_normalize_stem_removes_noise).
example : normalize_stem "Movie.Name.2023.SAMPLE" = "movie name 2023" := rfl
example : normalize_stem "Movie [720p] (Sample)" = "movie" := rfl
example : normalize_stem "Movie_Trailer_1080p" = "movie" := rfl
example : normalize_stem "Movie.Name.2023.[GROUP]" = "movie name 2023" := rfl

-- Validation of the SXE parser on the spec.md example name.
example :
    parse_sxe_from_name "Big Brother AU S16E12 720p WEB H264-JFF[EZTVx.to]" =
      (some "Big Brother AU", some "16", some "12") := rfl

example : render_name baseCfg baseItem = .ok "movie.mkv" := rfl

-- =====================================================================
-- Claim theorems
-- =====================================================================

-- C9 --------------------------------------------------------------------

def c9data : JsonVal :=
  .obj [("schema_version", .int 2), ("incoming_root", .str "")]

/-- C9 counterexample: a cache whose recorded scan root (`""`) differs
from the configured incoming root is read back silently — no structured
cache error is raised, contradicting the claim that every scan-root
mismatch is surfaced.  (`if inc and str(inc) != ...` skips the check for
a falsy recorded root.) -/
theorem C9_counterexample :
    pyStrOfJson (.str "") ≠ baseCfg.paths.incoming ∧
    read_cache_validate baseCfg c9data = .ok c9data :=
  ⟨by decide, rfl⟩

/-- C9 amended: reading the cache raises the structured `CacheError`
whenever the int-coerced recorded schema version differs from the
expected version, and whenever the version matches but the recorded scan
root is truthy and differs (as a string) from the configured incoming
root; a recorded schema version on which `int()` fails raises that
unstructured `TypeError`/`ValueError` instead, and a falsy recorded scan
root is accepted silently. -/
theorem C9_amended (cfg : SiftConfig) (kvs : List (String × JsonVal)) :
    (∀ n, pyIntOfJson ((alGet kvs "schema_version").getD (.int (-1))) = .ok n →
      n ≠ CACHE_VERSION →
      read_cache_validate cfg (.obj kvs) =
        .error ⟨"CacheError", "Cache schema mismatch"⟩) ∧
    (∀ n, pyIntOfJson ((alGet kvs "schema_version").getD (.int (-1))) = .ok n →
      n = CACHE_VERSION →
      pyTruthy ((alGet kvs "incoming_root").getD .null) = true →
      pyStrOfJson ((alGet kvs "incoming_root").getD .null) ≠ cfg.paths.incoming →
      read_cache_validate cfg (.obj kvs) =
        .error ⟨"CacheError", "Cache was generated for a different incoming_root"⟩) ∧
    (∀ e, pyIntOfJson ((alGet kvs "schema_version").getD (.int (-1))) = .error e →
      read_cache_validate cfg (.obj kvs) = .error e ∧ e.cls ≠ "CacheError") := by
  refine ⟨?_, ?_, ?_⟩
  · intro n hn hne
    simp [read_cache_validate, hn, hne]
  · intro n hn heq htr hne
    simp [read_cache_validate, hn, heq, htr, hne]
  · intro e he
    constructor
    · simp [read_cache_validate, he]
    · revert he
      cases hsv : (alGet kvs "schema_version").getD (.int (-1)) <;>
        simp [pyIntOfJson] <;> intro h <;> first
          | (cases h; decide)
          | (split at h <;> cases h <;> decide)

/-- C9 witness: the amended theorem applied at a concrete mismatching
schema version. -/
theorem C9_amended_witness :
    read_cache_validate baseCfg (.obj [("schema_version", .int 3)]) =
      .error ⟨"CacheError", "Cache schema mismatch"⟩ :=
  (C9_amended baseCfg [("schema_version", .int 3)]).1 3 rfl (by decide)

-- C7 --------------------------------------------------------------------

def c7cfg : SiftConfig :=
  { baseCfg with classification :=
      { baseClass with media_type_strategy := "sxe", tv_sxe_regex := badPattern } }

/-- C7: with strategy `sxe` and a malformed configured season/episode
pattern, `infer_media_type` propagates `re.error` instead of classifying
— it is not exception-free as the claim (and spec section 4.2) require.
The absent/empty-relpath branches do return `movies` as claimed. -/
theorem C7_code_bug :
    infer_media_type c7cfg baseItem = .error ⟨"error", "bad pattern"⟩ ∧
    infer_media_type c7cfg { baseItem with relpath := none } = .ok "movies" ∧
    infer_media_type c7cfg { baseItem with relpath := some "" } = .ok "movies" :=
  ⟨rfl, rfl, rfl⟩

-- C8 --------------------------------------------------------------------

/-- C8: malformed user-supplied patterns fail closed at all three sites.
Inserting a non-compiling pattern anywhere into the HDR side-data list or
the problem-audio list leaves the (total, never-raising) detection result
unchanged, and a tier rule whose `regex` entry is a non-compiling pattern
— or not a string at all — matches nothing and raises nothing. -/
theorem C8_fail_closed (cfg : SiftConfig) (item : Item) (p : PyPattern)
    (hp : p.valid = false) :
    (∀ l1 l2,
      is_hdr { cfg with classification :=
          { cfg.classification with hdr_side_data_regex := l1 ++ p :: l2 } } item =
      is_hdr { cfg with classification :=
          { cfg.classification with hdr_side_data_regex := l1 ++ l2 } } item) ∧
    (∀ l1 l2,
      is_problem_audio { cfg with classification :=
          { cfg.classification with problem_audio_profile_regex := l1 ++ p :: l2 } } item =
      is_problem_audio { cfg with classification :=
          { cfg.classification with problem_audio_profile_regex := l1 ++ l2 } } item) ∧
    (∀ a, match_value a (.table none none none (some (some p))) = .ok false) ∧
    (∀ a, match_value a (.table none none none (some none)) = .ok false) := by
  refine ⟨?_, ?_, ?_, ?_⟩
  · intro l1 l2
    cases item.ffprobe <;> simp [is_hdr, hp]
  · intro l1 l2
    cases item.ffprobe <;> simp [is_problem_audio, hp]
  · intro a
    cases a <;> simp [match_value, as_str_fact, hp]
  · intro a
    cases a <;> simp [match_value, as_str_fact]

/-- C8 witness: the fail-closed theorem at a concrete malformed pattern,
configuration and item. -/
theorem C8_fail_closed_witness :
    is_hdr { baseCfg with classification :=
        { baseCfg.classification with hdr_side_data_regex := [badPattern] } } baseItem =
      is_hdr baseCfg baseItem ∧
    match_value (.str "1080p") (.table none none none (some (some badPattern))) =
      .ok false := by
  constructor
  · exact (C8_fail_closed baseCfg baseItem badPattern rfl).1 [] []
  · exact (C8_fail_closed baseCfg baseItem badPattern rfl).2.2.1 (.str "1080p")

-- C2 --------------------------------------------------------------------

/-- Well-formed rule: every reachable `min`/`max` bound is `int()`-
coercible (the condition under which `_match_value` cannot raise). -/
def ruleWF : Rule → Bool
  | .scalar _ => true
  | .list _ => true
  | .table eqv mn mx _ =>
    match eqv with
    | some r => ruleWF r
    | none =>
      (match mn with | some v => (rvalToInt v).isSome | none => true) &&
      (match mx with | some v => (rvalToInt v).isSome | none => true)

def tiersWF (cfg : SiftConfig) : Bool :=
  cfg.tier_model.tier.all (fun t => t.requires.all (fun kr => ruleWF kr.2))

/-- Spec-side tier predicate: every requirement key matches (an empty
table matches unconditionally, since `List.all [] = true`). -/
def specMatchesTier (facts : Facts) (t : TierDef) : Bool :=
  t.requires.all (fun kr => specMatch (factsGet facts kr.1) kr.2)

/-- Spec-side selection, written from spec.md section 4.3: first tier in
configured order whose every requirement matches, else the tier whose id
case-insensitively equals the reserved fallback id, else the last tier. -/
def specTierSelect (cfg : SiftConfig) (facts : Facts) : Option TierDef :=
  match cfg.tier_model.tier.find? (specMatchesTier facts) with
  | some t => some t
  | none =>
    match cfg.tier_model.tier.find? (fun t => pyUpper t.id = "T4") with
    | some t => some t
    | none => cfg.tier_model.tier.getLast?

theorem match_value_eq_spec : ∀ (r : Rule) (a : FactVal), ruleWF r = true →
    match_value a r = .ok (specMatch a r)
  | .scalar v, a, _ => by cases v <;> rfl
  | .list xs, a, _ => by cases a <;> rfl
  | .table (some r) mn mx rgx, a, h => by
    have ih := match_value_eq_spec r a (by simpa [ruleWF] using h)
    simpa [match_value, specMatch] using ih
  | .table none mn mx rgx, a, h => by
    simp only [ruleWF, Bool.and_eq_true] at h
    cases mn with
    | some bv =>
      obtain ⟨b, hb⟩ := Option.isSome_iff_exists.mp h.1
      cases mx with
      | some bv2 =>
        obtain ⟨b2, hb2⟩ := Option.isSome_iff_exists.mp h.2
        cases ha : as_int_fact a with
        | none => simp [match_value, specMatch, ha]
        | some n =>
          simp only [match_value, specMatch, ha, hb, hb2, Option.getD_some,
            Option.isSome_some, Bool.true_or, if_true]
          by_cases hn : n < b
          · have hge : ¬ n ≥ b := by omega
            simp [hn, hge]
          · have hge : n ≥ b := by omega
            have hiff : ¬ n > b2 ↔ n ≤ b2 := by omega
            simp [hn, hge, hiff]
      | none =>
        cases ha : as_int_fact a with
        | none => simp [match_value, specMatch, ha]
        | some n =>
          simp only [match_value, specMatch, ha, hb, Option.getD_some,
            Option.isSome_some, Bool.true_or, Bool.and_true, if_true]
          by_cases hn : n < b
          · have hge : ¬ n ≥ b := by omega
            simp [hn, hge]
          · have hge : n ≥ b := by omega
            simp [hn, hge]
    | none =>
      cases mx with
      | some bv2 =>
        obtain ⟨b2, hb2⟩ := Option.isSome_iff_exists.mp h.2
        cases ha : as_int_fact a with
        | none => simp [match_value, specMatch, ha]
        | some n =>
          simp only [match_value, specMatch, ha, hb2, Option.getD_some,
            Option.isSome_some, Option.isSome_none, Bool.or_true,
            Bool.true_and, if_true]
          have hiff : ¬ n > b2 ↔ n ≤ b2 := by omega
          simp [hiff]
      | none =>
        cases rgx with
        | none => simp [match_value, specMatch]
        | some pv =>
          cases pv with
          | none => cases a <;> simp [match_value, specMatch, as_str_fact]
          | some pat => cases a <;> simp [match_value, specMatch, as_str_fact]

theorem reqLoop_eq (facts : Facts) : ∀ (req : List (String × Rule)),
    req.all (fun kr => ruleWF kr.2) = true →
    reqLoop facts req =
      .ok (req.all (fun kr => specMatch (factsGet facts kr.1) kr.2))
  | [], _ => rfl
  | (k, r) :: rest, h => by
    simp only [List.all_cons, Bool.and_eq_true] at h
    have h1 := match_value_eq_spec r (factsGet facts k) h.1
    have h2 := reqLoop_eq facts rest h.2
    simp only [reqLoop, h1, List.all_cons]
    by_cases hb : specMatch (factsGet facts k) r = true
    · simp [hb, h2]
    · simp [Bool.eq_false_iff.mpr hb]

theorem tierLoop_eq (facts : Facts) : ∀ (ts : List TierDef),
    ts.all (fun t => t.requires.all (fun kr => ruleWF kr.2)) = true →
    tierLoop facts ts = .ok (ts.find? (specMatchesTier facts))
  | [], _ => rfl
  | t :: rest, h => by
    simp only [List.all_cons, Bool.and_eq_true] at h
    have h2 := tierLoop_eq facts rest h.2
    by_cases he : t.requires.isEmpty
    · have hm : specMatchesTier facts t = true := by
        simp [specMatchesTier, List.isEmpty_iff.mp he]
      simp [tierLoop, he, List.find?_cons_of_pos _ hm]
    · have h1 := reqLoop_eq facts t.requires h.1
      simp only [tierLoop, he, if_false, Bool.false_eq_true, h1]
      by_cases hm : specMatchesTier facts t = true
      · have hm' : t.requires.all
            (fun kr => specMatch (factsGet facts kr.1) kr.2) = true := hm
        simp [hm', List.find?_cons_of_pos _ hm]
      · have hm' : t.requires.all
            (fun kr => specMatch (factsGet facts kr.1) kr.2) = false :=
          Bool.eq_false_iff.mpr hm
        simp [hm', h2, List.find?_cons_of_neg _ (by simpa using hm)]

/-- C2 counterexample configuration: a single tier requiring
`{"min_audio_channels": {"min": "abc"}}` (a validated-shape config). -/
def c2tier : TierDef :=
  ⟨"T1", "tier1", [("min_audio_channels", .table none (some (.str "abc")) none none)], []⟩

def c2cfg : SiftConfig := { baseCfg with tier_model := ⟨[c2tier]⟩ }

/-- C2 counterexample: `int("abc")` raises inside `_match_value`, so
`tier_for_item` raises `ValueError` instead of returning a tier — the
claim fails for this (nonempty-tier-list) configuration and item. -/
theorem C2_counterexample :
    c2cfg.tier_model.tier ≠ [] ∧
    tier_for_item c2cfg baseItem =
      .error ⟨"ValueError", "invalid literal for int with base 10"⟩ :=
  ⟨List.cons_ne_nil _ _, rfl⟩

/-- C2 amended: for every configuration whose `min`/`max` rule bounds are
`int()`-coercible (and whose tier list is nonempty, as validation
guarantees), tier selection returns exactly one `TierDef`, and it is the
spec-described one: the first tier in configured order whose every
requirement matches (an empty requirement table matching
unconditionally), else the tier whose id case-insensitively equals
`"T4"`, else the last tier in configured order. -/
theorem C2_amended (cfg : SiftConfig) (item : Item)
    (hwf : tiersWF cfg = true) (hne : cfg.tier_model.tier ≠ []) :
    ∃ t, tier_for_item cfg item = .ok t ∧
      specTierSelect cfg (derive_facts cfg item) = some t := by
  have hl := tierLoop_eq (derive_facts cfg item) cfg.tier_model.tier
    (by simpa [tiersWF] using hwf)
  unfold tier_for_item specTierSelect
  rw [hl]
  cases hf : cfg.tier_model.tier.find? (specMatchesTier (derive_facts cfg item)) with
  | some t => exact ⟨t, rfl, rfl⟩
  | none =>
    cases hf4 : cfg.tier_model.tier.find? (fun t => pyUpper t.id = "T4") with
    | some t => exact ⟨t, rfl, rfl⟩
    | none =>
      cases hgl : cfg.tier_model.tier.getLast? with
      | some t => exact ⟨t, rfl, rfl⟩
      | none => exact absurd (List.getLast?_eq_none_iff.mp hgl) hne

/-- C2 witness: the amended theorem at a concrete configuration (a tier
whose numeric-range requirement is unmet, so selection falls back to the
last tier). -/
theorem C2_amended_witness :
    ∃ t, tier_for_item
        { baseCfg with tier_model :=
            ⟨[⟨"T5", "tier5",
               [("min_audio_channels", .table none (some (.int 6)) none none)],
               []⟩]⟩ } baseItem = .ok t := by
  obtain ⟨t, h1, _⟩ := C2_amended
    { baseCfg with tier_model :=
        ⟨[⟨"T5", "tier5",
           [("min_audio_channels", .table none (some (.int 6)) none none)],
           []⟩]⟩ } baseItem (by decide) (List.cons_ne_nil _ _)
  exact ⟨t, h1⟩

-- C4 --------------------------------------------------------------------

def c4sd : SampleDetectionConfig := ⟨true, -100, 0, true⟩

def c4cfg : SiftConfig := { baseCfg with sample_detection := c4sd }

def c4ffA : FFSummary :=
  { okFF with duration_s := some (-5), stream_counts := some ⟨some 1, some 1⟩ }

def c4ffB : FFSummary :=
  { okFF with duration_s := some (-3), stream_counts := some ⟨some 1, some 1⟩ }

def c4A : Item := ⟨some "a.mkv", some "/data/incoming/a.mkv", none, none, some c4ffA⟩

def c4B : Item := ⟨some "a.mp4", some "/data/incoming/a.mp4", none, none, some c4ffB⟩

/-- C4 counterexample: two surviving items grouped under the same
normalized key whose probed durations are both negative.  The group's
maximum duration is `-3` (item B), yet `_mark_samples` marks *both*
members — including the maximum-duration one — because its running
maximum starts at `0.0`.  The claim says members tied at the maximum all
remain unskipped. -/
theorem C4_counterexample :
    groupKey c4A = groupKey c4B ∧
    c4ffB.duration_s = some (-3) ∧ c4ffA.duration_s = some (-5) ∧
    (∀ d ∈ List.filterMap id [c4ffA.duration_s, c4ffB.duration_s], d ≤ (-3 : Rat)) ∧
    (mark_samples c4cfg [c4A, c4B]).map (·.skip_reason) =
      [some "sample_shorter_variant", some "sample_shorter_variant"] :=
  ⟨rfl, rfl, rfl, by decide, rfl⟩

/-- `d` is below the pass-2 running maximum iff `d` is negative or some
group member has a strictly larger numeric duration (the fold starts at
`0.0`). -/
theorem groupMax_fold_lt_iff (d : Rat) : ∀ (grp : List Item) (acc : Rat),
    (d < grp.foldl (fun acc it =>
      match it.ffprobe.bind (·.duration_s) with
      | some dd => if dd > acc then dd else acc
      | none => acc) acc) ↔
    (d < acc ∨ ∃ j ∈ grp, ∃ dj, j.ffprobe.bind (·.duration_s) = some dj ∧ d < dj)
  | [], acc => by simp
  | j :: grp, acc => by
    rw [List.foldl_cons]
    cases hj : j.ffprobe.bind (·.duration_s) with
    | none =>
      simp only [hj]
      rw [groupMax_fold_lt_iff d grp acc]
      simp [hj]
    | some dj =>
      simp only [hj]
      by_cases hgt : dj > acc
      · rw [if_pos hgt, groupMax_fold_lt_iff d grp dj]
        simp only [List.mem_cons]
        constructor
        · rintro (h | ⟨x, hx, dx, hdx, hd⟩)
          · exact Or.inr ⟨j, Or.inl rfl, dj, hj, h⟩
          · exact Or.inr ⟨x, Or.inr hx, dx, hdx, hd⟩
        · rintro (h | ⟨x, hx | hx, dx, hdx, hd⟩)
          · exact Or.inl (lt_trans h hgt)
          · subst hx
            rw [hj] at hdx
            cases hdx
            exact Or.inl hd
          · exact Or.inr ⟨x, hx, dx, hdx, hd⟩
      · rw [if_neg hgt, groupMax_fold_lt_iff d grp acc]
        simp only [List.mem_cons]
        constructor
        · rintro (h | ⟨x, hx, dx, hdx, hd⟩)
          · exact Or.inl h
          · exact Or.inr ⟨x, Or.inr hx, dx, hdx, hd⟩
        · rintro (h | ⟨x, hx | hx, dx, hdx, hd⟩)
          · exact Or.inl h
          · subst hx
            rw [hj] at hdx
            cases hdx
            exact Or.inl (lt_of_lt_of_le hd (le_of_not_lt hgt))
          · exact Or.inr ⟨x, hx, dx, hdx, hd⟩

theorem lt_groupMax_iff (d : Rat) (grp : List Item) :
    d < groupMax grp ↔
      (d < 0 ∨ ∃ j ∈ grp, ∃ dj, j.ffprobe.bind (·.duration_s) = some dj ∧ d < dj) :=
  groupMax_fold_lt_iff d grp 0

/-- The marking condition of the amended claim: the item survives pass 1
with a nonempty group key, its group has at least two members, and its
duration is negative or strictly below some member's duration. -/
def shorterVariantCond (items1 : List Item) (it : Item) : Prop :=
  ∃ k, groupKey it = some k ∧
    (items1.filter (fun j => groupKey j = some k)).length ≥ 2 ∧
    ∃ d, it.ffprobe.bind (·.duration_s) = some d ∧
      (d < 0 ∨ ∃ j ∈ items1.filter (fun j => groupKey j = some k),
        ∃ dj, j.ffprobe.bind (·.duration_s) = some dj ∧ d < dj)

/-- C4 amended: with sample detection and prefer-longest-variant enabled,
pass 1 marks exactly the ok-probed items with too few video streams
(reason `no_video_stream`) or a numeric duration below the minimum
(reason `sample_too_short`); then, within every group of two or more
surviving same-key items, exactly the members whose probed duration is
strictly less than the larger of zero and the group's maximum duration
are marked `sample_shorter_variant` (so with any nonnegative duration in
the group this is exactly "strictly less than the group maximum", but in
an all-negative group even the maximum member is marked); all other
items are returned unchanged. -/
theorem C4_amended (cfg : SiftConfig) (items : List Item)
    (hen : cfg.sample_detection.enabled = true)
    (hpl : cfg.sample_detection.prefer_longest_variant = true) :
    (∀ it : Item, ∀ ff, it.ffprobe = some ff → ff.ok = true →
      ((match ff.stream_counts with
        | some sc => sc.video.getD 0
        | none => 0) < cfg.sample_detection.min_video_streams →
        (pass1Mark cfg.sample_detection it).skip_reason = some "no_video_stream") ∧
      (¬ (match ff.stream_counts with
          | some sc => sc.video.getD 0
          | none => 0) < cfg.sample_detection.min_video_streams →
        ∀ d, ff.duration_s = some d → d < cfg.sample_detection.min_duration_s →
        (pass1Mark cfg.sample_detection it).skip_reason = some "sample_too_short")) ∧
    List.Forall₂ (fun it1 res =>
        (shorterVariantCond (items.map (pass1Mark cfg.sample_detection)) it1 →
          res = { it1 with skip_reason := some "sample_shorter_variant" }) ∧
        (¬ shorterVariantCond (items.map (pass1Mark cfg.sample_detection)) it1 →
          res = it1))
      (items.map (pass1Mark cfg.sample_detection))
      (mark_samples cfg items) := by
  constructor
  · intro it ff hff hok
    constructor
    · intro hlt
      simp [pass1Mark, hff, hok, hlt]
    · intro hge d hd hlt
      simp [pass1Mark, hff, hok, hge, hd, hlt]
  · have hms : mark_samples cfg items =
        (items.map (pass1Mark cfg.sample_detection)).map (fun it =>
          match groupKey it with
          | none => it
          | some k =>
            let grp := (items.map (pass1Mark cfg.sample_detection)).filter
              (fun j => groupKey j = some k)
            if grp.length ≤ 1 then it
            else
              match it.ffprobe.bind (·.duration_s) with
              | some d =>
                if d < groupMax grp then
                  { it with skip_reason := some "sample_shorter_variant" }
                else it
              | none => it) := by
      simp [mark_samples, hen, hpl]
    rw [hms]
    rw [List.forall₂_map_right_iff]
    rw [List.forall₂_same]
    intro it _hit
    set items1 := items.map (pass1Mark cfg.sample_detection) with hi1
    constructor
    · rintro ⟨k, hk, hlen, d, hd, hcond⟩
      simp only [hk]
      have hgt : ¬ (items1.filter (fun j => groupKey j = some k)).length ≤ 1 := by
        omega
      rw [if_neg hgt]
      simp only [hd]
      rw [if_pos ((lt_groupMax_iff d _).mpr hcond)]
    · intro hnc
      cases hk : groupKey it with
      | none => rfl
      | some k =>
        by_cases hlen : (items1.filter (fun j => groupKey j = some k)).length ≤ 1
        · simp [hk, hlen]
        · cases hd : it.ffprobe.bind (·.duration_s) with
          | none => simp [hk, hlen, hd]
          | some d =>
            simp only [hk, if_neg hlen, hd]
            rw [if_neg]
            intro hlt
            exact hnc ⟨k, hk, by omega, d, hd, (lt_groupMax_iff d _).mp hlt⟩

/-- C4 witness: the amended theorem at the concrete two-item group. -/
theorem C4_amended_witness :
    List.Forall₂ (fun it1 res =>
        (shorterVariantCond ([c4A, c4B].map (pass1Mark c4cfg.sample_detection)) it1 →
          res = { it1 with skip_reason := some "sample_shorter_variant" }) ∧
        (¬ shorterVariantCond ([c4A, c4B].map (pass1Mark c4cfg.sample_detection)) it1 →
          res = it1))
      ([c4A, c4B].map (pass1Mark c4cfg.sample_detection))
      (mark_samples c4cfg [c4A, c4B]) :=
  (C4_amended c4cfg [c4A, c4B] rfl rfl).2

-- C5 --------------------------------------------------------------------

theorem mem_tierFlagsOf (cfg : SiftConfig) (item : Item) (f : String) :
    f ∈ tierFlagsOf cfg item ↔
      ∃ mt tier rd fa, route_destination cfg item = .ok (mt, tier, rd, fa) ∧
        f ∈ tier.flags ∧ f ∉ cfg.flags.judgement_flags := by
  unfold tierFlagsOf
  cases hrd : route_destination cfg item with
  | error e => simp [hrd]
  | ok q =>
    obtain ⟨mt, tier, rd, fa⟩ := q
    simp only [hrd, List.mem_filter, decide_not, Bool.not_eq_eq_eq_not,
      Bool.not_true, Except.ok.injEq, Prod.mk.injEq]
    constructor
    · rintro ⟨h1, h2⟩
      refine ⟨mt, tier, rd, fa, ⟨rfl, rfl, rfl, rfl⟩, h1, ?_⟩
      intro hmem
      simp only [decide_eq_false_iff_not, List.contains, List.elem_iff] at h2
      exact h2 hmem
    · rintro ⟨mt2, tier2, rd2, fa2, ⟨rfl, rfl, rfl, rfl⟩, h1, h2⟩
      refine ⟨h1, ?_⟩
      simp only [decide_eq_false_iff_not, List.contains, List.elem_iff]
      exact h2

theorem mem_hfrFlags (cfg : SiftConfig) (item : Item) (f : String) :
    f ∈ hfrFlags cfg item ↔
      (f = "HFR" ∧ cfg.flags.enable_hfr_flag = true ∧
        ∃ fps, (item.ffprobe.bind (·.video)).bind (·.fps) = some fps ∧
          fps > cfg.flags.hfr_fps_threshold) := by
  unfold hfrFlags
  by_cases he : cfg.flags.enable_hfr_flag
  · simp only [he, if_true]
    cases hf : (item.ffprobe.bind (·.video)).bind (·.fps) with
    | none => simp
    | some fps =>
      by_cases hgt : fps > cfg.flags.hfr_fps_threshold
      · simp [hgt]
      · simp [hgt]
  · simp [he]

theorem mem_lowFlags (cfg : SiftConfig) (item : Item) (f : String) :
    f ∈ lowFlags cfg item ↔
      (f = cfg.flags.low_bitrate_flag_name ∧
        cfg.flags.enable_low_bitrate_flag = true ∧
        ∃ th, alGet cfg.flags.low_bitrate_thresholds (derive_facts cfg item).res =
            some th ∧ th ≠ 0 ∧
          ∃ bps, item.ffprobe.bind (·.overall_bitrate_bps) = some bps ∧
            bps < (th : Rat)) := by
  unfold lowFlags
  by_cases he : cfg.flags.enable_low_bitrate_flag
  · simp only [he, if_true]
    cases hth : alGet cfg.flags.low_bitrate_thresholds (derive_facts cfg item).res with
    | none => simp
    | some th =>
      cases hbps : item.ffprobe.bind (·.overall_bitrate_bps) with
      | none => simp
      | some bps =>
        dsimp only
        by_cases hc : th ≠ 0 ∧ bps < (th : Rat)
        · rw [if_pos hc]
          simp only [List.mem_singleton]
          constructor
          · intro hfe
            exact ⟨hfe, trivial, th, rfl, hc.1, bps, rfl, hc.2⟩
          · rintro ⟨hfe, _, th2, hth2, _, bps2, hbps2, _⟩
            exact hfe
        · rw [if_neg hc]
          simp only [List.not_mem_nil, false_iff]
          rintro ⟨hfe, _, th2, hth2, hz, bps2, hbps2, hlt⟩
          cases hth2
          cases hbps2
          exact hc ⟨hz, hlt⟩
  · simp [he]

def c5cfg : SiftConfig :=
  { baseCfg with
      flags := { baseFlagsCfg with
        enable_hfr_flag := true, hfr_fps_threshold := 30,
        judgement_flags := ["HFR"] },
      naming := { baseNaming with
        movie_template := "{flags}.{ext}", tv_template := "{flags}.{ext}" } }

def c5ff : FFSummary :=
  { okFF with video := some ⟨none, none, none, none, some 60, none, none, none⟩ }

def c5item : Item := { baseItem with ffprobe := some c5ff }

/-- C5 counterexample: `"HFR"` belongs to the configured judgement-flag
set, yet with the HFR feature enabled and a 60 fps probe the dynamic HFR
flag is appended without judgement filtering (only the tier's own flags
are filtered), and it appears in the rendered filename. -/
theorem C5_counterexample :
    "HFR" ∈ c5cfg.flags.judgement_flags ∧
    flagsFor c5cfg c5item = ["HFR"] ∧
    render_name c5cfg c5item = .ok "HFR.mkv" :=
  ⟨by decide, rfl, rfl⟩

/-- C5 amended: a flag is assembled into the rendered name's flags
segment exactly when it is (a) a flag of the selected tier that is not
in the configured judgement set, or (b) the literal `"HFR"` with the HFR
feature enabled and the probed frame rate strictly above the threshold,
or (c) the configured low-bitrate flag name with that feature enabled, a
nonzero threshold present for the item's resolution bucket, and the
probed overall bitrate strictly below it.  Judgement filtering applies
only to the tier flags: a dynamic HFR/low-bitrate flag appears even when
it belongs to the judgement set, and the flags reach the filename only
through the template's flags token. -/
theorem C5_amended (cfg : SiftConfig) (item : Item) (f : String) :
    f ∈ flagsFor cfg item ↔
      ((∃ mt tier rd fa, route_destination cfg item = .ok (mt, tier, rd, fa) ∧
          f ∈ tier.flags ∧ f ∉ cfg.flags.judgement_flags) ∨
       (f = "HFR" ∧ cfg.flags.enable_hfr_flag = true ∧
          ∃ fps, (item.ffprobe.bind (·.video)).bind (·.fps) = some fps ∧
            fps > cfg.flags.hfr_fps_threshold) ∨
       (f = cfg.flags.low_bitrate_flag_name ∧
          cfg.flags.enable_low_bitrate_flag = true ∧
          ∃ th, alGet cfg.flags.low_bitrate_thresholds (derive_facts cfg item).res =
              some th ∧ th ≠ 0 ∧
            ∃ bps, item.ffprobe.bind (·.overall_bitrate_bps) = some bps ∧
              bps < (th : Rat))) := by
  unfold flagsFor
  simp only [List.mem_append, mem_tierFlagsOf, mem_hfrFlags, mem_lowFlags]
  exact or_assoc

-- C6 --------------------------------------------------------------------

theorem length_dropWhile_le_aux {α : Type} (p : α → Bool) :
    ∀ l : List α, (l.dropWhile p).length ≤ l.length
  | [] => le_refl _
  | a :: l => by
    rw [List.dropWhile_cons]
    split
    · exact le_trans (length_dropWhile_le_aux p l) (Nat.le_succ _)
    · simp

theorem pyRstrip_length_le (s : String) : (pyRstrip s).length ≤ s.length := by
  show ((s.data.reverse.dropWhile pySpace).reverse).length ≤ s.data.length
  rw [List.length_reverse]
  calc (s.data.reverse.dropWhile pySpace).length
      ≤ s.data.reverse.length := length_dropWhile_le_aux _ _
    _ = s.data.length := List.length_reverse _

theorem pySliceTo_length_le (s : String) (k : Int) (hk : 0 ≤ k) :
    ((pySliceTo s k).length : Int) ≤ k := by
  unfold pySliceTo
  rw [if_pos hk]
  show (((s.data.take k.toNat).length : Nat) : Int) ≤ k
  rw [List.length_take]
  have h1 : min k.toNat s.data.length ≤ k.toNat := Nat.min_le_left _ _
  omega

theorem string_append_length (a b : String) :
    (a ++ b).length = a.length + b.length := by
  show (a.data ++ b.data).length = a.data.length + b.data.length
  exact List.length_append _ _

def c6cfg : SiftConfig :=
  { baseCfg with naming := { baseNaming with max_filename_len := 3 } }

def c6item : Item :=
  { baseItem with relpath := some "abcdefghijklmnop.mkv",
                  path := some "/data/incoming/abcdefghijklmnop.mkv" }

/-- C6 counterexample: with a positive maximum filename length (3) that
is smaller than the `"." + ext` suffix, the truncation slice index
`max_filename_len - len(ext_part)` is negative, so `name[:base_len]`
keeps all but the last character and the reattached extension pushes the
result to 23 characters — far above the configured maximum. -/
theorem C6_counterexample :
    0 < c6cfg.naming.max_filename_len ∧
    render_name c6cfg c6item = .ok "abcdefghijklmnop.mk.mkv" ∧
    ¬ ((("abcdefghijklmnop.mk.mkv" : String).length : Int) ≤
        c6cfg.naming.max_filename_len) :=
  ⟨by decide, rfl, by decide⟩

/-- C6 amended: for every item with a present, nonempty relative path and
every configuration whose positive maximum filename length is at least
the length of the `"." + ext` suffix, `render_name` succeeds, the
returned name's length is at most the configured maximum, and whenever
truncation was applied (the pre-clamp name exceeded the maximum) the
result ends exactly with the `"." + ext` suffix.  (When the maximum is
smaller than the suffix, the clamp can overshoot the maximum, as the
counterexample shows.) -/
theorem C6_amended (cfg : SiftConfig) (item : Item) (rel : String)
    (hrel : item.relpath = some rel) (hne : rel ≠ "")
    (hpos : 0 < cfg.naming.max_filename_len)
    (hext : ((extPartOf rel).length : Int) ≤ cfg.naming.max_filename_len) :
    ∃ nm, render_name cfg item = .ok nm ∧
      ((nm.length : Int) ≤ cfg.naming.max_filename_len) ∧
      (((render_core cfg item rel).length : Int) > cfg.naming.max_filename_len →
        ∃ pre : String, nm = pre ++ extPartOf rel) := by
  unfold render_name
  rw [hrel]
  simp only [hne, if_false]
  by_cases hlong : cfg.naming.max_filename_len ≠ 0 ∧
      ((render_core cfg item rel).length : Int) > cfg.naming.max_filename_len
  · rw [if_pos hlong]
    refine ⟨_, rfl, ?_, fun _ => ⟨_, rfl⟩⟩
    rw [string_append_length]
    have hbase : (0 : Int) ≤ cfg.naming.max_filename_len - (extPartOf rel).length := by
      omega
    have h1 := pySliceTo_length_le (render_core cfg item rel)
      (cfg.naming.max_filename_len - (extPartOf rel).length) hbase
    have h2 := pyRstrip_length_le
      (pySliceTo (render_core cfg item rel)
        (cfg.naming.max_filename_len - (extPartOf rel).length))
    omega
  · rw [if_neg hlong]
    refine ⟨_, rfl, ?_, ?_⟩
    · have : ¬ ((render_core cfg item rel).length : Int) > cfg.naming.max_filename_len := by
        by_cases hz : cfg.naming.max_filename_len = 0
        · omega
        · intro hgt
          exact hlong ⟨hz, hgt⟩
      omega
    · intro hgt
      exfalso
      have hz : cfg.naming.max_filename_len ≠ 0 := by omega
      exact hlong ⟨hz, hgt⟩

/-- C6 witness: the amended theorem at a concrete item whose rendered
name exceeds a small-but-sufficient maximum (the tie to the suffix is
exercised too: max 10, name 9 + suffix). -/
theorem C6_amended_witness :
    ∃ nm, render_name
      { baseCfg with naming := { baseNaming with max_filename_len := 10 } }
      c6item = .ok nm ∧
      ((nm.length : Int) ≤ 10) ∧
      (((render_core
          { baseCfg with naming := { baseNaming with max_filename_len := 10 } }
          c6item "abcdefghijklmnop.mkv").length : Int) > 10 →
        ∃ pre : String, nm = pre ++ extPartOf "abcdefghijklmnop.mkv") :=
  C6_amended
    { baseCfg with naming := { baseNaming with max_filename_len := 10 } }
    c6item "abcdefghijklmnop.mkv" rfl (by decide) (by decide) (by decide)

-- C1 --------------------------------------------------------------------

def c1dst : PPath := ["data", "outgoing", "movies", "tier1", "movie.mkv"]

def c1fs : FS :=
  { files := [⟨["data", "incoming", "movie.mkv"], 3⟩, ⟨c1dst, 7⟩],
    dirs := [[], ["data"], ["data", "incoming"], ["data", "outgoing"],
             ["data", "outgoing", "movies"], ["data", "outgoing", "movies", "tier1"]],
    listRaises := [], mkdirRaises := [], copyRaises := [], renameRaises := [],
    removeRaises := [], nextInode := 10 }

def c1detail : Detail :=
  ⟨some "movie.mkv", "/data/incoming/movie.mkv", some (pathStr c1dst),
   some "movie.mkv", "skip", some "already_processed", some (pathStr c1dst),
   some "movies", some "T1", some ⟨"SD", false, none, none, 0, false⟩⟩

/-- C1 counterexample: dedup-on-collision is enabled and the computed
destination exists as a different file (inode 7) than the source (inode
3), yet the transfer records a skip with reason `already_processed` —
not `collision` — and creates no numbered `movie (1).mkv` variant (the
filesystem is returned unchanged; copied = 0). -/
theorem C1_counterexample :
    baseCfg.io.dedupe_on_collision = true ∧
    lookupFile c1fs c1dst = some 7 ∧
    lookupFile c1fs ["data", "incoming", "movie.mkv"] = some 3 ∧
    transfer_inventory baseCfg false false [baseItem] c1fs =
      .ok (⟨0, 0, 1, 0, [c1detail]⟩, c1fs) :=
  ⟨rfl, rfl, rfl, rfl⟩

/-- C1 amended: for every item whose computed literal destination exists
as a file referring to a different underlying file than the source —
with the destination's parent directory present and listable — the
engine records a skip with reason `already_processed` (the early
destination scan finds the existing name) and leaves the filesystem
unchanged, regardless of the dedup-on-collision setting; the numbered
`name (i).ext` generator `_dedup_path` is never invoked by
`transfer_inventory`, and no reason `collision` exists. -/
theorem C1_amended (cfg : SiftConfig) (dry only : Bool) (fs : FS)
    (item : Item) (src_s : String) (mt tid : String) (dst : PPath)
    (facts : Facts) (i j : Nat)
    (hpath : item.path = some src_s) (hs : src_s ≠ "")
    (hskip : truthyOpt item.skip_reason = none)
    (honly : (only && ! (match item.ffprobe with
      | some ff => ff.ok
      | none => false)) = false)
    (hcd : compute_destination cfg item = .ok (mt, tid, dst, facts))
    (hdst : lookupFile fs dst = some j)
    (hsrc : lookupFile fs (pathParts src_s) = some i)
    (hij : i ≠ j)
    (hparent : dirExists fs dst.dropLast = true)
    (hlist : raiseFor fs.listRaises dst.dropLast = none) :
    ∃ ex, process_item cfg dry only fs item =
      .ok (some ⟨item.relpath, src_s, some (pathStr dst),
        some (dst.getLastD ""), "skip", some "already_processed",
        some (pathStr ex), some mt, some tid, some facts⟩, .skipped, fs) := by
  obtain ⟨entry, hentry, hpath_e⟩ :
      ∃ e, fs.files.find? (fun f => f.path = dst) = some e ∧ e.path = dst := by
    unfold lookupFile at hdst
    cases hf : fs.files.find? (fun f => f.path = dst) with
    | none => rw [hf] at hdst; cases hdst
    | some e =>
      refine ⟨e, rfl, ?_⟩
      have := List.find?_some hf
      simpa using this
  have hfev : ∃ ex, find_existing_variant fs dst = .ok (some ex) := by
    unfold find_existing_variant
    have hpe : pexists fs dst.dropLast = true := by
      simp [pexists, hparent]
    rw [if_neg (by simp [hpe]), hlist]
    simp only [hparent, if_true]
    cases hfind : (fs.files.filter (fun f => f.path.dropLast = dst.dropLast)).find?
        (fun f =>
          let nm := f.path.getLastD ""
          nm = dst.getLastD "" || isDedupName (pyStemOf (dst.getLastD ""))
            (pySuffixOf (dst.getLastD "")) nm) with
    | some f => exact ⟨f.path, rfl⟩
    | none =>
      exfalso
      have hall := List.find?_eq_none.mp hfind
      apply hall entry
      · rw [List.mem_filter]
        refine ⟨List.mem_of_find?_eq_some hentry, ?_⟩
        simp [hpath_e]
      · simp [hpath_e]
  obtain ⟨ex, hfe⟩ := hfev
  refine ⟨ex, ?_⟩
  unfold process_item
  rw [hpath]
  simp only [hs, if_false, hskip, honly, hcd, hfe]
  simp

/-- C1 witness: the amended theorem at the concrete collision fixture
(source inode 3, destination inode 7). -/
theorem C1_amended_witness :
    ∃ ex, process_item baseCfg false false c1fs baseItem =
      .ok (some ⟨baseItem.relpath, "/data/incoming/movie.mkv",
        some (pathStr c1dst), some (c1dst.getLastD ""), "skip",
        some "already_processed", some (pathStr ex), some "movies", some "T1",
        some ⟨"SD", false, none, none, 0, false⟩⟩, .skipped, c1fs) :=
  C1_amended baseCfg false false c1fs baseItem "/data/incoming/movie.mkv"
    "movies" "T1" c1dst ⟨"SD", false, none, none, 0, false⟩ 3 7
    rfl (by decide) rfl rfl rfl rfl rfl (by decide) rfl rfl

-- C3 --------------------------------------------------------------------

def c3fs : FS :=
  { files := [⟨["data", "incoming", "movie.mkv"], 3⟩],
    dirs := [[], ["data"], ["data", "incoming"], ["data", "outgoing"],
             ["data", "outgoing", "movies"], ["data", "outgoing", "movies", "tier1"]],
    listRaises := [(["data", "outgoing", "movies", "tier1"],
      ⟨"PermissionError", "denied"⟩)],
    mkdirRaises := [], copyRaises := [], renameRaises := [],
    removeRaises := [], nextInode := 10 }

def c3item2 : Item :=
  ⟨some "other.mkv", some "/data/incoming/other.mkv", none, none, some okFF⟩

/-- C3 counterexample: the destination-directory scan
(`_find_existing_variant`, called outside both `try/except` blocks)
raises `PermissionError` while processing the first item, and the whole
run aborts: no `fail` detail is recorded and the second item is never
processed — contradicting "no single item's error causes
transfer_inventory to abort the run". -/
theorem C3_counterexample :
    transfer_inventory baseCfg false false [baseItem, c3item2] c3fs =
      .error ⟨"PermissionError", "denied"⟩ := rfl

/-- Exhaustive shape analysis of one `transfer_inventory` loop body:
either nothing is recorded and no counter bumps; or the appended detail
is the dry-run record (counter untouched, only in dry-run mode); or it
is a skip/fail record bumping the matching counter; or it is a
copied/moved record (only outside dry-run) bumping the matching
counter. -/
theorem process_item_cases (cfg : SiftConfig) (dry only : Bool) (fs : FS)
    (item : Item) (d : Option Detail) (c : CounterKind) (fs1 : FS)
    (h : process_item cfg dry only fs item = .ok (d, c, fs1)) :
    (d = none ∧ c = .nothing) ∨
    (∃ dd, d = some dd ∧
      ((c = .nothing ∧ dry = true ∧ dd.action = cfg.io.mode ++ "_dry_run") ∨
       (c = .skipped ∧ dd.action = "skip") ∨
       (c = .failed ∧ dd.action = "fail") ∨
       ((c = .copied ∨ c = .moved) ∧ dry = false))) := by
  unfold process_item at h
  dsimp only at h
  repeat' split at h
  all_goals try (cases h)
  all_goals simp_all

/-- C3 amended: (a) the only way a per-item exception escapes
`transfer_inventory` is the early destination-directory scan
(`_find_existing_variant`, outside both `try/except` blocks) — whenever
the loop body signals an exception, the destination had been computed
successfully and the scan raised exactly that exception; (b) when the
loop body completes, processing continues with the remaining items and
the item's detail/counter are folded into the result; (c) an exception
inside the guarded block (here: the chunked copy) is caught and recorded
as a `fail` detail carrying the exception's class and message. -/
theorem C3_amended (cfg : SiftConfig) :
    (∀ (dry only : Bool) (fs : FS) (item : Item) (e : PyExn),
      process_item cfg dry only fs item = .error e →
      ∃ mt tid dst facts, compute_destination cfg item = .ok (mt, tid, dst, facts) ∧
        find_existing_variant fs dst = .error e) ∧
    (∀ (dry only : Bool) (fs fs1 : FS) (item : Item) (rest : List Item)
      (d : Option Detail) (c : CounterKind),
      process_item cfg dry only fs item = .ok (d, c, fs1) →
      transfer_inventory cfg dry only (item :: rest) fs =
        match transfer_inventory cfg dry only rest fs1 with
        | .error e => .error e
        | .ok (r, fs2) => .ok (consDetail d (bumpCounter c r), fs2)) ∧
    (∀ (only : Bool) (fs fs1 : FS) (item : Item) (src_s mt tid : String)
      (dst : PPath) (facts : Facts) (e : PyExn),
      item.path = some src_s → src_s ≠ "" →
      truthyOpt item.skip_reason = none →
      (only && ! (match item.ffprobe with
        | some ff => ff.ok
        | none => false)) = false →
      compute_destination cfg item = .ok (mt, tid, dst, facts) →
      find_existing_variant fs dst = .ok none →
      pexists fs (pathParts src_s) = true →
      pexists fs dst = false →
      ensure_parent cfg fs dst = .ok fs1 →
      cfg.io.mode = "copy" →
      (copy_file fs1 (pathParts src_s) dst).2 = some e →
      process_item cfg false only fs item =
        .ok (some ⟨item.relpath, src_s, some (pathStr dst),
          some (dst.getLastD ""), "fail",
          some ("exception: " ++ e.cls ++ ": " ++ e.msg), none, some mt,
          some tid, some facts⟩, .failed,
          (copy_file fs1 (pathParts src_s) dst).1)) := by
  refine ⟨?_, ?_, ?_⟩
  · intro dry only fs item e h
    unfold process_item at h
    dsimp only at h
    repeat' split at h
    all_goals try (injection h)
    all_goals subst_vars
    all_goals exact ⟨_, _, _, _, by assumption, by assumption⟩
  · intro dry only fs fs1 item rest d c hstep
    simp [transfer_inventory, hstep]
  · intro only fs fs1 item src_s mt tid dst facts e hpath hs hskip honly hcd
      hfev hsrc hdstE hep hmode hcf
    unfold process_item
    rw [hpath]
    cases hpair : copy_file fs1 (pathParts src_s) dst with
    | mk fs2 oe =>
      rw [hpair] at hcf
      simp only at hcf
      subst hcf
      simp only [hs, if_false, hskip, honly, hcd, hfev, hsrc, hdstE, hep,
        hmode, hpair]
      simp [exnReason]

/-- C3 witness: part (a) of the amended theorem applied at the concrete
aborting run of the counterexample. -/
theorem C3_amended_witness :
    ∃ mt tid dst facts,
      compute_destination baseCfg baseItem = .ok (mt, tid, dst, facts) ∧
      find_existing_variant c3fs dst = .error ⟨"PermissionError", "denied"⟩ :=
  (C3_amended baseCfg).1 false false c3fs baseItem
    ⟨"PermissionError", "denied"⟩ rfl

-- C10 -------------------------------------------------------------------

/-- Number of would-be-action (dry-run) records in a detail list. -/
def dryActionCount (mode : String) (ds : List Detail) : Nat :=
  (ds.filter (fun dd => dd.action = mode ++ "_dry_run")).length

theorem skip_ne_dry_action (mode : String) :
    ("skip" : String) ≠ mode ++ "_dry_run" := by
  intro hne
  have hl := congrArg String.length hne
  rw [string_append_length] at hl
  have h1 : ("skip" : String).length = 4 := rfl
  have h2 : ("_dry_run" : String).length = 8 := rfl
  omega

theorem fail_ne_dry_action (mode : String) :
    ("fail" : String) ≠ mode ++ "_dry_run" := by
  intro hne
  have hl := congrArg String.length hne
  rw [string_append_length] at hl
  have h1 : ("fail" : String).length = 4 := rfl
  have h2 : ("_dry_run" : String).length = 8 := rfl
  omega

/-- C10: in dry-run mode `transfer_inventory` increments none of the
copied/moved counters and every detail record either bumps exactly one
of skipped/failed or is a would-be-action (`{mode}_dry_run`) record that
bumps nothing — so the four counters sum to the detail count minus the
number of dry-run records (strictly less when any item is transferable);
outside dry-run every appended detail record increments exactly one of
the four counters, so the counters sum to the number of detail records. -/
theorem C10_dry_run_invariant (cfg : SiftConfig) (dry only : Bool) :
    ∀ (items : List Item) (fs : FS) (r : TransferResult) (fs2 : FS),
    transfer_inventory cfg dry only items fs = .ok (r, fs2) →
    (dry = true → r.copied = 0 ∧ r.moved = 0 ∧
      r.skipped + r.failed + dryActionCount cfg.io.mode r.details =
        r.details.length) ∧
    (dry = false →
      r.copied + r.moved + r.skipped + r.failed = r.details.length)
  | [], fs, r, fs2, h => by
    simp only [transfer_inventory] at h
    injection h with h1
    cases h1
    simp [dryActionCount]
  | it :: rest, fs, r, fs2, h => by
    simp only [transfer_inventory] at h
    cases hstep : process_item cfg dry only fs it with
    | error e => rw [hstep] at h; cases h
    | ok out =>
      obtain ⟨d, c, fs1⟩ := out
      rw [hstep] at h
      dsimp only at h
      cases hrec : transfer_inventory cfg dry only rest fs1 with
      | error e => rw [hrec] at h; cases h
      | ok pr =>
        obtain ⟨r0, fs3⟩ := pr
        rw [hrec] at h
        have ih := C10_dry_run_invariant cfg dry only rest fs1 r0 fs3 hrec
        injection h with h1
        cases h1
        rcases process_item_cases cfg dry only fs it d c fs1 hstep with
          ⟨rfl, rfl⟩ | ⟨dd, rfl, hcase⟩
        · simpa [consDetail, bumpCounter] using ih
        · rcases hcase with ⟨rfl, hdry, hact⟩ | ⟨rfl, hact⟩ | ⟨rfl, hact⟩ |
            ⟨hc, hdry⟩
          · constructor
            · intro hd
              obtain ⟨i1, i2, i3⟩ := ih.1 hd
              simp only [dryActionCount] at i3
              simp [consDetail, bumpCounter, dryActionCount, List.filter_cons,
                hact, i1, i2]
              omega
            · intro hd
              rw [hd] at hdry
              cases hdry
          · constructor
            · intro hd
              obtain ⟨i1, i2, i3⟩ := ih.1 hd
              simp only [dryActionCount] at i3
              simp [consDetail, bumpCounter, dryActionCount, List.filter_cons,
                hact, skip_ne_dry_action cfg.io.mode, i1, i2]
              omega
            · intro hd
              have i := ih.2 hd
              simp [consDetail, bumpCounter]
              omega
          · constructor
            · intro hd
              obtain ⟨i1, i2, i3⟩ := ih.1 hd
              simp only [dryActionCount] at i3
              simp [consDetail, bumpCounter, dryActionCount, List.filter_cons,
                hact, fail_ne_dry_action cfg.io.mode, i1, i2]
              omega
            · intro hd
              have i := ih.2 hd
              simp [consDetail, bumpCounter]
              omega
          · constructor
            · intro hd
              rw [hd] at hdry
              cases hdry
            · intro hd
              have i := ih.2 hd
              rcases hc with rfl | rfl
              · simp [consDetail, bumpCounter]
                omega
              · simp [consDetail, bumpCounter]
                omega

def c10skip : Item :=
  ⟨some "skipme.mkv", some "/data/incoming/skipme.mkv",
   some "sample_too_short", none, some okFF⟩

def c10fs : FS :=
  { files := [⟨["data", "incoming", "movie.mkv"], 3⟩,
              ⟨["data", "incoming", "skipme.mkv"], 4⟩],
    dirs := [[], ["data"], ["data", "incoming"]],
    listRaises := [], mkdirRaises := [], copyRaises := [], renameRaises := [],
    removeRaises := [], nextInode := 10 }

/-- C10 witness: the invariant applied at a concrete dry run (one
pre-skipped item, one transferable item), where the four counters sum to
strictly less than the number of detail records. -/
theorem C10_witness :
    ∃ r fs2, transfer_inventory baseCfg true false [c10skip, baseItem] c10fs =
      .ok (r, fs2) ∧
      r.copied = 0 ∧ r.moved = 0 ∧
      r.skipped + r.failed + dryActionCount baseCfg.io.mode r.details =
        r.details.length ∧
      r.copied + r.moved + r.skipped + r.failed < r.details.length := by
  refine ⟨_, _, rfl, ?_, ?_, ?_, ?_⟩
  · exact ((C10_dry_run_invariant baseCfg true false [c10skip, baseItem]
      c10fs _ _ rfl).1 rfl).1
  · exact ((C10_dry_run_invariant baseCfg true false [c10skip, baseItem]
      c10fs _ _ rfl).1 rfl).2.1
  · exact ((C10_dry_run_invariant baseCfg true false [c10skip, baseItem]
      c10fs _ _ rfl).1 rfl).2.2
  · decide
